import Mathlib

/-!
# PulseTrain (pulsetrain.h): a shallow embedding and its verified properties

The C header `pulsetrain.h` drives software pulse trains on the 16 bit timers
of the Arduino Mega.  The embedding below follows the source function by
function:

* the global variables `ptrains`, `timer_array` and `ptrain_count`, the
  hardware registers of the four timers and the calls made to the Arduino pin
  functions form one explicit `State`; every C function becomes a function
  from `State` to its return value and the new `State`;
* C arrays are total functions from the index, so an access outside the
  declared bounds is visible in the model instead of being undefined; the
  member array of a timer is read and written through `ptrain_idxs_read` and
  `ptrain_idxs_write`, which follow the struct one element past its end;
* machine integers are `Nat` and every store into a `uint8_t` / `uint16_t`
  field that can overflow is reduced modulo `2^8` / `2^16` where the source
  truncates; the arguments of a function are taken to be values of the C type
  of the parameter;
* `CLOCKCYCLESPERMICROSECOND` is `F_CPU / 1000000L`; `F_CPU` comes from the
  build, so it is a parameter of the functions that convert microseconds.
-/

namespace PulseTrain

/-! ## Enums and constants -/

/-- The 16 bit timers.  The fifth enumerator of the source,
`NUMBER_OF_16BIT_TIMERS`, is the length of `timer_array` and not a timer; the
`default:` branches of the switches over a timer, which only it could reach,
do nothing. -/
inductive timers16bit_t
  | PTIMER1
  | PTIMER3
  | PTIMER4
  | PTIMER5
  deriving DecidableEq, Repr

/-- The states of the pulse state machine (`enum pulse_states`). -/
inductive pulse_states
  | PPULSE_LO
  | PPULSE_HI
  | PDC_INIT
  | PDC_RUNNING
  | POFF
  deriving DecidableEq, Repr

open timers16bit_t pulse_states

abbrev NUMBER_OF_PTRAINS : Nat := 32
abbrev PTRAINS_PER_TIMER : Nat := 12
abbrev DEFAULT_PTRAIN_PRESCALE : Nat := 8
abbrev SMALL_COUNT : Nat := 4
abbrev PTRAIN_REMOVED : Nat := 251
abbrev ERROR_PTRAIN_REMOVED : Nat := 252
abbrev ERROR_TIMER_RUNNING : Nat := 253
abbrev ERROR_TIMER_COUNT : Nat := 254
abbrev ERROR_PTRAIN_IDX : Nat := 255

/-- Bit number of the output compare A interrupt enable bit in `TIMSKn`
(device header of the ATmega2560, the same for timers 1, 3, 4 and 5). -/
abbrev OCIEnA : Nat := 1

/-- Bit number of the output compare A flag in `TIFRn` (device header of the
ATmega2560, the same for timers 1, 3, 4 and 5). -/
abbrev OCFnA : Nat := 1

/-- The avr-libc bit value helper `_BV(bit) = 1 << bit`. -/
def _BV (bit : Nat) : Nat := 1 <<< bit

/-- The macro `US_TO_COUNTS(_us, _scale)`, that is
`(CLOCKCYCLESPERMICROSECOND * _us) / _scale`, computed in 32 bit unsigned
arithmetic (`unsigned long` of the AVR): the product wraps modulo `2^32`. -/
def US_TO_COUNTS (CLOCKCYCLESPERMICROSECOND us scale : Nat) : Nat :=
  ((CLOCKCYCLESPERMICROSECOND * us) % 2 ^ 32) / scale

/-! ## Data model -/

/-- The struct `ptrain_t`. -/
structure ptrain_t where
  pin : Nat
  timer_index : Nat
  timer_number : timers16bit_t
  pulse_counts : Nat
  period_counts : Nat
  period_num_limit : Nat
  prescale : Nat

/-- The struct `timer16control_t`. -/
structure timer16control_t where
  ptrain_idxs : Nat → Nat
  number_of_ptrains : Nat
  number_of_periods : Nat
  period_num_limit : Nat
  pulse_counts : Nat
  period_counts : Nat
  bit_prescale : Nat
  pulsed_state : pulse_states

/-- The read of `timer_control->ptrain_idxs[i]`.  The array has
`PTRAINS_PER_TIMER` elements of type `uint8_t` and the member that follows it
in the struct is the `uint8_t number_of_ptrains`, so the element at index
`PTRAINS_PER_TIMER` is the member count.  An index above `PTRAINS_PER_TIMER`
reaches the further members of the struct and the memory behind it; the
embedding does not follow that and keeps such a slot in `ptrain_idxs`. -/
def ptrain_idxs_read (c : timer16control_t) (i : Nat) : Nat :=
  if i = PTRAINS_PER_TIMER then c.number_of_ptrains else c.ptrain_idxs i

/-- The store `timer_control->ptrain_idxs[i] = v`.  At index
`PTRAINS_PER_TIMER` it lands in `number_of_ptrains`, the member that follows
the array in the struct. -/
def ptrain_idxs_write (c : timer16control_t) (i v : Nat) : timer16control_t :=
  if i = PTRAINS_PER_TIMER then { c with number_of_ptrains := v }
  else { c with ptrain_idxs := Function.update c.ptrain_idxs i v }

/-- The registers of one 16 bit timer that the source touches: `TCCRnA`,
`TCCRnB`, `OCRnA`, `TIFRn`, `TCNTn`, `TIMSKn`.  They are plain cells holding
the value last written. -/
structure timer_registers where
  TCCRnA : Nat
  TCCRnB : Nat
  OCRnA : Nat
  TIFRn : Nat
  TCNTn : Nat
  TIMSKn : Nat

/-- The two pin levels of `digitalWrite`. -/
inductive pin_level
  | LOW
  | HIGH
  deriving DecidableEq, Repr

/-- A call to one of the Arduino pin functions, with the pin as the `uint8_t`
the function receives. -/
inductive pin_call
  | pinMode_OUTPUT (pin : Nat)
  | digitalWrite (pin : Nat) (level : pin_level)
  deriving DecidableEq, Repr

open pin_level pin_call

/-- The whole state: the three globals of the source, the timer registers and
the pin calls made so far, oldest first. -/
structure State where
  ptrains : Nat → ptrain_t
  timer_array : timers16bit_t → timer16control_t
  ptrain_count : Nat
  registers : timers16bit_t → timer_registers
  pin_calls : List pin_call

/-- Static storage is zero initialised: every field of every train is `0`
(timer `PTIMER1`, the enumerator of value `0`). -/
def ptrain_zero : ptrain_t :=
  { pin := 0, timer_index := 0, timer_number := PTIMER1, pulse_counts := 0,
    period_counts := 0, period_num_limit := 0, prescale := 0 }

/-- Static storage is zero initialised: every field of every timer control is
`0` (state `PPULSE_LO`, the enumerator of value `0`). -/
def timer16control_zero : timer16control_t :=
  { ptrain_idxs := fun _ => 0, number_of_ptrains := 0, number_of_periods := 0,
    period_num_limit := 0, pulse_counts := 0, period_counts := 0,
    bit_prescale := 0, pulsed_state := PPULSE_LO }

/-- The state at program start: zeroed globals, `ptrain_count = 0`, timer
registers cleared and no pin call made. -/
def initial_state : State :=
  { ptrains := fun _ => ptrain_zero,
    timer_array := fun _ => timer16control_zero,
    ptrain_count := 0,
    registers := fun _ =>
      { TCCRnA := 0, TCCRnB := 0, OCRnA := 0, TIFRn := 0, TCNTn := 0, TIMSKn := 0 },
    pin_calls := [] }

/-- Store `p` into `ptrains[i]`. -/
def set_ptrain (s : State) (i : Nat) (p : ptrain_t) : State :=
  { s with ptrains := Function.update s.ptrains i p }

/-- Store `c` into `timer_array[timer]`. -/
def set_timer (s : State) (timer : timers16bit_t) (c : timer16control_t) : State :=
  { s with timer_array := Function.update s.timer_array timer c }

/-- Store `r` into the registers of `timer`. -/
def set_registers (s : State) (timer : timers16bit_t) (r : timer_registers) : State :=
  { s with registers := Function.update s.registers timer r }

/-- The members of a timer: `ptrain_idxs[0 .. number_of_ptrains - 1]`. -/
def members (c : timer16control_t) : List Nat :=
  (List.range c.number_of_ptrains).map (ptrain_idxs_read c)

/-- The loop `for (i = 0; i < num_ptrains; i++) digitalWrite(ptrains[ptrain_idxs[i]].pin, level)`
of `pHandleInterrupts`: the calls it makes, in order. -/
def pin_writes (s : State) (timer : timers16bit_t) (level : pin_level) : List pin_call :=
  (List.range (s.timer_array timer).number_of_ptrains).map
    (fun i => digitalWrite (s.ptrains (ptrain_idxs_read (s.timer_array timer) i)).pin level)

/-! ## Timer lifecycle -/

/-- The function `pStopTimer`: clear the prescale bits and the compare
interrupt enable bit. Returns `0`. -/
def pStopTimer (timer : timers16bit_t) (s : State) : Nat × State :=
  let r := s.registers timer
  (0, set_registers s timer
    { r with TCCRnB := r.TCCRnB &&& 0xF8, TIMSKn := r.TIMSKn &&& (0xFF - _BV OCIEnA) })

/-- The function `pIsTimerActive`: the prescale bits of `TCCRnB` are not all
zero. -/
def pIsTimerActive (timer : timers16bit_t) (s : State) : Bool :=
  if (s.registers timer).TCCRnB &&& 0x07 = 0x00 then false else true

/-- The function `pEnableISR`.  Timer 1 ors into `TIFR1` and `TIMSK1`, the
other timers assign; timer 3 ands the prescale into `TCCR3B` where the other
timers or it. -/
def pEnableISR (timer : timers16bit_t) (s : State) : State :=
  let timer_control := s.timer_array timer
  let r := s.registers timer
  match timer with
  | PTIMER1 =>
    set_registers s timer
      { TCCRnA := 0x00, OCRnA := SMALL_COUNT, TIFRn := r.TIFRn ||| _BV OCFnA,
        TCCRnB := r.TCCRnB ||| timer_control.bit_prescale, TCNTn := 0x0000,
        TIMSKn := r.TIMSKn ||| _BV OCIEnA }
  | PTIMER3 =>
    set_registers s timer
      { TCCRnA := 0x00, OCRnA := SMALL_COUNT, TIFRn := _BV OCFnA,
        TCCRnB := r.TCCRnB &&& timer_control.bit_prescale, TCNTn := 0x0000,
        TIMSKn := _BV OCIEnA }
  | PTIMER4 =>
    set_registers s timer
      { TCCRnA := 0x00, OCRnA := SMALL_COUNT, TIFRn := _BV OCFnA,
        TCCRnB := r.TCCRnB ||| timer_control.bit_prescale, TCNTn := 0x0000,
        TIMSKn := _BV OCIEnA }
  | PTIMER5 =>
    set_registers s timer
      { TCCRnA := 0x00, OCRnA := SMALL_COUNT, TIFRn := _BV OCFnA,
        TCCRnB := r.TCCRnB ||| timer_control.bit_prescale, TCNTn := 0x0000,
        TIMSKn := _BV OCIEnA }

/-- The function `pStartTimer`. -/
def pStartTimer (timer : timers16bit_t) (s : State) : Nat × State :=
  let timer_control := s.timer_array timer
  if pIsTimerActive timer s = false ∧ timer_control.number_of_ptrains > 0 then
    let s1 := set_timer s timer
      { timer_control with
        number_of_periods := 0
        pulsed_state := if timer_control.period_counts = 0 then PDC_INIT else PPULSE_LO }
    (0, pEnableISR timer s1)
  else
    (ERROR_TIMER_RUNNING, s)

/-- The function `pHandleInterrupts`, called by the compare interrupt of
`timer` with the `TCNTn` and `OCRnA` registers of that timer.  The `default:`
label of the source stands before `case PDC_INIT:`, so `POFF` runs the
`PDC_INIT` branch. -/
def pHandleInterrupts (timer : timers16bit_t) (s : State) : State :=
  let timer_control := s.timer_array timer
  match timer_control.pulsed_state with
  | PPULSE_LO =>
    let s1 := set_registers s timer { s.registers timer with TCNTn := 0x00 }
    let s2 := { s1 with pin_calls := s1.pin_calls ++ pin_writes s timer HIGH }
    let s3 := set_timer s2 timer
      { timer_control with
        pulsed_state := PPULSE_HI
        number_of_periods := (timer_control.number_of_periods + 1) % 2 ^ 16 }
    set_registers s3 timer
      { s3.registers timer with OCRnA := (s3.timer_array timer).pulse_counts }
  | PPULSE_HI =>
    let s1 := { s with pin_calls := s.pin_calls ++ pin_writes s timer LOW }
    let s2 := set_timer s1 timer { timer_control with pulsed_state := PPULSE_LO }
    let s3 :=
      if (s2.timer_array timer).number_of_periods ≥ (s2.timer_array timer).period_num_limit
      then (pStopTimer timer s2).2 else s2
    set_registers s3 timer
      { s3.registers timer with OCRnA := (s3.timer_array timer).period_counts }
  | PDC_RUNNING =>
    let s1 := set_registers s timer { s.registers timer with TCNTn := 0x00 }
    let s2 := set_timer s1 timer
      { timer_control with
        number_of_periods := (timer_control.number_of_periods + 1) % 2 ^ 16 }
    if (s2.timer_array timer).number_of_periods ≥ (s2.timer_array timer).period_num_limit
    then
      let s3 := { s2 with pin_calls := s2.pin_calls ++ pin_writes s timer LOW }
      (pStopTimer timer s3).2
    else s2
  | _ =>
    let s1 := set_registers s timer { s.registers timer with TCNTn := 0x00 }
    let s2 := { s1 with pin_calls := s1.pin_calls ++ pin_writes s timer HIGH }
    let s3 := set_timer s2 timer { timer_control with pulsed_state := PDC_RUNNING }
    set_registers s3 timer
      { s3.registers timer with OCRnA := (s3.timer_array timer).pulse_counts }

/-- The state after `k` successive compare interrupts of `timer`. -/
def interrupts (timer : timers16bit_t) : Nat → State → State
  | 0, s => s
  | k + 1, s => pHandleInterrupts timer (interrupts timer k s)

/-! ## The pulse train registry -/

/-- The function `pNewPTrain`. -/
def pNewPTrain (s : State) : Nat × State :=
  let temp := s.ptrain_count
  if s.ptrain_count < NUMBER_OF_PTRAINS then
    let s1 := set_ptrain s s.ptrain_count
      { s.ptrains s.ptrain_count with prescale := DEFAULT_PTRAIN_PRESCALE }
    (temp, { s1 with ptrain_count := s1.ptrain_count + 1 })
  else
    (ERROR_PTRAIN_IDX, s)

/-- The state after `k` successive calls of `pNewPTrain`. -/
def pNewPTrain_calls : Nat → State → State
  | 0, s => s
  | k + 1, s => (pNewPTrain (pNewPTrain_calls k s)).2

/-- The function `pIsValidPTrain`. -/
def pIsValidPTrain (test : Nat) (s : State) : Bool :=
  if test < s.ptrain_count then true else false

/-- The switch of `_pSetPulseUS` over the requested prescale: the value it
leaves in `ptrain->prescale`. -/
def stored_prescale (prescale : Nat) : Nat :=
  if prescale = 1024 ∨ prescale = 256 ∨ prescale = 64 ∨ prescale = 8 ∨ prescale = 1
  then prescale else DEFAULT_PTRAIN_PRESCALE

/-- The function `_pSetPulseUS`.  The counts are stored into `uint16_t`
fields, which keeps their low 16 bits. -/
def _pSetPulseUS (CLOCKCYCLESPERMICROSECOND : Nat)
    (ptrain_index period pulse_width period_num_limit prescale : Nat) (s : State) :
    Nat × State :=
  if ptrain_index < NUMBER_OF_PTRAINS then
    let ptrain := s.ptrains ptrain_index
    if pulse_width < period ∨ period = 0 then
      let s1 := set_ptrain s ptrain_index { ptrain with prescale := stored_prescale prescale }
      let s2 := set_ptrain s1 ptrain_index
        { s1.ptrains ptrain_index with
          period_counts :=
            US_TO_COUNTS CLOCKCYCLESPERMICROSECOND period (s1.ptrains ptrain_index).prescale
              % 2 ^ 16 }
      let s3 := set_ptrain s2 ptrain_index
        { s2.ptrains ptrain_index with
          pulse_counts :=
            US_TO_COUNTS CLOCKCYCLESPERMICROSECOND pulse_width
              (s2.ptrains ptrain_index).prescale % 2 ^ 16 }
      (0, set_ptrain s3 ptrain_index
        { s3.ptrains ptrain_index with period_num_limit := period_num_limit })
    else
      (ERROR_TIMER_COUNT, s)
  else
    (ERROR_PTRAIN_IDX, s)

/-- The function `pSetPulseUS`. -/
def pSetPulseUS (CLOCKCYCLESPERMICROSECOND : Nat)
    (ptrain_index period pulse_width period_num_limit : Nat) (s : State) : Nat × State :=
  _pSetPulseUS CLOCKCYCLESPERMICROSECOND ptrain_index period pulse_width period_num_limit
    (s.ptrains ptrain_index).prescale s

/-- The function `pSetPulseOnlyUS`. -/
def pSetPulseOnlyUS (CLOCKCYCLESPERMICROSECOND : Nat) (ptrain_index pulse_width : Nat)
    (s : State) : Nat × State :=
  let ptrain := s.ptrains ptrain_index
  (0, set_ptrain s ptrain_index
    { ptrain with
      pulse_counts :=
        US_TO_COUNTS CLOCKCYCLESPERMICROSECOND pulse_width ptrain.prescale % 2 ^ 16 })

/-- The function `pSetPeriodOnlyUS`. -/
def pSetPeriodOnlyUS (CLOCKCYCLESPERMICROSECOND : Nat) (ptrain_index period : Nat)
    (s : State) : Nat × State :=
  let ptrain := s.ptrains ptrain_index
  (0, set_ptrain s ptrain_index
    { ptrain with
      period_counts :=
        US_TO_COUNTS CLOCKCYCLESPERMICROSECOND period ptrain.prescale % 2 ^ 16 })

/-- The function `pSetPeriodNumberOnly`. -/
def pSetPeriodNumberOnly (ptrain_index period_num_limit : Nat) (s : State) : Nat × State :=
  let ptrain := s.ptrains ptrain_index
  (0, set_ptrain s ptrain_index { ptrain with period_num_limit := period_num_limit })

/-- The function `pGetPulseCounts`. -/
def pGetPulseCounts (ptrain_index : Nat) (s : State) : Nat :=
  (s.ptrains ptrain_index).pulse_counts

/-- The function `pGetPeriodCounts`. -/
def pGetPeriodCounts (ptrain_index : Nat) (s : State) : Nat :=
  (s.ptrains ptrain_index).period_counts

/-- The function `pGetPeriodNumber`. -/
def pGetPeriodNumber (ptrain_index : Nat) (s : State) : Nat :=
  (s.ptrains ptrain_index).period_num_limit

/-! ## The timer assignment manager -/

/-- The function `pSetTimerPrescale`.  Its `prescale` parameter is a
`uint8_t`, so the `uint16_t` prescale of a train is reduced modulo `2^8` at
the call and `case 1024` and `case 256` cannot match. -/
def pSetTimerPrescale (timer : timers16bit_t) (prescale : Nat) (s : State) : Nat × State :=
  let prescale8 := prescale % 2 ^ 8
  let bit_prescale :=
    if prescale8 = 1024 then 0x05
    else if prescale8 = 256 then 0x04
    else if prescale8 = 64 then 0x03
    else if prescale8 = 8 then 0x02
    else 0x01
  (0, set_timer s timer { s.timer_array timer with bit_prescale := bit_prescale })

/-- The function `pReloadToTimer`. -/
def pReloadToTimer (ptrain_idx : Nat) (s : State) : Nat × State :=
  let ptrain_control := s.ptrains ptrain_idx
  let timer := ptrain_control.timer_number
  let s1 := set_timer s timer
    { s.timer_array timer with
      pulse_counts := ptrain_control.pulse_counts
      period_counts := ptrain_control.period_counts
      period_num_limit := ptrain_control.period_num_limit }
  let s2 := (pSetTimerPrescale timer ptrain_control.prescale s1).2
  ((s2.timer_array timer).number_of_ptrains, s2)

/-- The function `pAddToTimer`.  There is no test of `number_of_ptrains`
against `PTRAINS_PER_TIMER`; the count is a `uint8_t`.  On a full timer the
store goes to index `PTRAINS_PER_TIMER`, that is into the count, which the
next statement then increments. -/
def pAddToTimer (timer : timers16bit_t) (ptrain_idx : Nat) (s : State) : Nat × State :=
  let timer_control := s.timer_array timer
  let s1 := set_timer s timer
    (ptrain_idxs_write timer_control timer_control.number_of_ptrains ptrain_idx)
  let s2 := set_timer s1 timer
    { s1.timer_array timer with
      number_of_ptrains := ((s1.timer_array timer).number_of_ptrains + 1) % 2 ^ 8 }
  pReloadToTimer ptrain_idx s2

/-- The loop `for (i = start; i < number_of_ptrains; i++) ptrain_idxs[i-1] = ptrain_idxs[i]`
of `pRemoveFromTimer`, from `i` on.  The bound is read again before every
iteration, as in the source.  The first argument bounds the number of
iterations: `number_of_ptrains` is a `uint8_t`, so fewer than `2^8` are made. -/
def slide_over : Nat → Nat → timer16control_t → timer16control_t
  | 0, _, c => c
  | k + 1, i, c =>
    if i < c.number_of_ptrains then
      slide_over k (i + 1) (ptrain_idxs_write c (i - 1) (ptrain_idxs_read c i))
    else c

/-- The function `pRemoveFromTimer`.  The loop starts at `timer_index + 1`. -/
def pRemoveFromTimer (timer : timers16bit_t) (ptrain_idx : Nat) (s : State) : Nat × State :=
  let timer_control := s.timer_array timer
  let timer_index := (s.ptrains ptrain_idx).timer_index
  if timer_control.number_of_ptrains > 0 then
    let s1 := set_timer s timer (slide_over (2 ^ 8) (timer_index + 1) timer_control)
    let s2 := set_timer s1 timer
      { s1.timer_array timer with
        number_of_ptrains := (s1.timer_array timer).number_of_ptrains - 1 }
    (PTRAIN_REMOVED, s2)
  else
    (ERROR_PTRAIN_REMOVED, s)

/-- The function `pAttach`.  The `int pin` is stored into a `uint8_t`. -/
def pAttach (ptrain_index : Nat) (pin : Int) (timer : timers16bit_t) (s : State) :
    Nat × State :=
  if ptrain_index < NUMBER_OF_PTRAINS then
    let pin8 := (pin % 256).toNat
    let s1 := { s with pin_calls := s.pin_calls ++ [pinMode_OUTPUT pin8] }
    let s2 := set_ptrain s1 ptrain_index { s1.ptrains ptrain_index with pin := pin8 }
    let s3 := set_ptrain s2 ptrain_index { s2.ptrains ptrain_index with timer_number := timer }
    let r := pAddToTimer timer ptrain_index s3
    let s4 := set_ptrain r.2 ptrain_index { r.2.ptrains ptrain_index with timer_index := r.1 }
    (ptrain_index, s4)
  else
    (ERROR_PTRAIN_IDX, s)

/-- The function `pStop`. -/
def pStop (ptrain_index : Nat) (s : State) : Nat × State :=
  let ptrain := s.ptrains ptrain_index
  let r := pRemoveFromTimer ptrain.timer_number ptrain_index s
  let s1 := set_ptrain r.2 ptrain_index { r.2.ptrains ptrain_index with timer_index := r.1 }
  ((s1.ptrains ptrain_index).timer_index, s1)

/-- The function `pIsPTrainActive`. -/
def pIsPTrainActive (ptrain_idx : Nat) (s : State) : Bool :=
  let ptrain_control := s.ptrains ptrain_idx
  let timer_control := s.timer_array ptrain_control.timer_number
  if ptrain_idx = ptrain_idxs_read timer_control ptrain_control.timer_index ∧
      pIsTimerActive ptrain_control.timer_number s = true then true else false

/-! ## Observations and run helpers used by the statements -/

/-- The compare interrupt of `timer` is enabled: bit `OCIEnA` of `TIMSKn` is set. -/
def compare_interrupt_enabled (timer : timers16bit_t) (s : State) : Bool :=
  if (s.registers timer).TIMSKn &&& _BV OCIEnA = 0 then false else true

/-- The state `k` compare interrupts after `pStartTimer` on `timer`. -/
def started_run (timer : timers16bit_t) (s0 : State) (k : Nat) : State :=
  interrupts timer k (pStartTimer timer s0).2

/-- The part of the state that the interrupt handler of `timer` only reads. -/
def same_setup (timer : timers16bit_t) (a b : State) : Prop :=
  a.ptrains = b.ptrains ∧
  (a.timer_array timer).ptrain_idxs = (b.timer_array timer).ptrain_idxs ∧
  (a.timer_array timer).number_of_ptrains = (b.timer_array timer).number_of_ptrains ∧
  (a.timer_array timer).period_num_limit = (b.timer_array timer).period_num_limit ∧
  (a.timer_array timer).pulse_counts = (b.timer_array timer).pulse_counts ∧
  (a.timer_array timer).period_counts = (b.timer_array timer).period_counts

/-- The state of a variable duty run between two periods: `j` periods done,
the next step is a low phase step, the timer registers that start wrote are
untouched and every period so far made one batch of HIGH and one of LOW
writes. -/
def between_periods (t : timers16bit_t) (s1 s : State) (j : Nat) : Prop :=
  (s.timer_array t).pulsed_state = PPULSE_LO ∧
  (s.timer_array t).number_of_periods = j ∧
  (s.registers t).TCCRnB = (s1.registers t).TCCRnB ∧
  (s.registers t).TIMSKn = (s1.registers t).TIMSKn ∧
  s.pin_calls = s1.pin_calls ++
    (List.replicate j (pin_writes s1 t HIGH ++ pin_writes s1 t LOW)).flatten

/-- The state of a continuous mode run while it is running: the init step is
done, `i` periods are counted, the timer registers that start wrote are
untouched and the only pin writes so far are the HIGH writes of the init
step. -/
def during_continuous (t : timers16bit_t) (s1 s : State) (i : Nat) : Prop :=
  (s.timer_array t).pulsed_state = PDC_RUNNING ∧
  (s.timer_array t).number_of_periods = i ∧
  (s.registers t).TCCRnB = (s1.registers t).TCCRnB ∧
  (s.registers t).TIMSKn = (s1.registers t).TIMSKn ∧
  s.pin_calls = s1.pin_calls ++ pin_writes s1 t HIGH

/-- One train, allocated from the initial state, configured with a period of
`period_us` and a pulse of `pulse_us` microseconds at 16 clock cycles per
microsecond and prescale 8, and attached with pin 13 to `PTIMER1`. -/
def one_train (period_us pulse_us period_num_limit : Nat) : State :=
  let s := (pNewPTrain initial_state).2
  let s := (_pSetPulseUS 16 0 period_us pulse_us period_num_limit 8 s).2
  (pAttach 0 13 PTIMER1 s).2

/-- The state after `k` successive calls of `pStartTimer` on `timer`. -/
def pStartTimer_calls (timer : timers16bit_t) : Nat → State → State
  | 0, s => s
  | k + 1, s => (pStartTimer timer (pStartTimer_calls timer k s)).2

/-- The state after attaching the trains `0 .. k - 1`, train `i` with pin `i`,
to `PTIMER1`, with 21 trains allocated from the initial state. -/
def attached_trains : Nat → State
  | 0 => pNewPTrain_calls 21 initial_state
  | k + 1 => (pAttach k k PTIMER1 (attached_trains k)).2

/-- Two trains allocated from the initial state at 16 clock cycles per
microsecond and prescale 8: train 0 with period 50 us, pulse 10 us and limit 5,
train 1 with period 100 us, pulse 30 us and limit 7; train 0 is attached with
pin 12 and then train 1 with pin 13 to `PTIMER1`. -/
def two_trains : State :=
  let s := pNewPTrain_calls 2 initial_state
  let s := (_pSetPulseUS 16 0 50 10 5 8 s).2
  let s := (_pSetPulseUS 16 1 100 30 7 8 s).2
  let s := (pAttach 0 12 PTIMER1 s).2
  (pAttach 1 13 PTIMER1 s).2

/-- One train, allocated from the initial state, configured with the requested
`prescale`, a period of 1000 us, a pulse of 100 us and limit 5 at 16 clock
cycles per microsecond, and attached with pin 13 to `PTIMER1`. -/
def one_train_prescaled (prescale : Nat) : State :=
  let s := (pNewPTrain initial_state).2
  let s := (_pSetPulseUS 16 0 1000 100 5 prescale s).2
  (pAttach 0 13 PTIMER1 s).2

/-- Between `s` and `s1` nothing but train `idx` may differ: every other
train, the train count, every timer control, every register and the pin calls
are the same. -/
def only_train_changed (idx : Nat) (s s1 : State) : Prop :=
  (∀ j, j ≠ idx → s1.ptrains j = s.ptrains j) ∧
  s1.ptrain_count = s.ptrain_count ∧
  s1.timer_array = s.timer_array ∧
  s1.registers = s.registers ∧
  s1.pin_calls = s.pin_calls

/-- One train, allocated from the initial state, configured with period 50 us,
pulse 10 us and limit 5 at 16 clock cycles per microsecond and prescale 8, and
attached with pin 13 to `timer`. -/
def one_train_on (timer : timers16bit_t) : State :=
  let s := (pNewPTrain initial_state).2
  let s := (_pSetPulseUS 16 0 50 10 5 8 s).2
  (pAttach 0 13 timer s).2

/-- The supported prescale factors: the case labels of the switch of
`_pSetPulseUS`. -/
def supported_prescale (p : Nat) : Prop :=
  p = 1 ∨ p = 8 ∨ p = 64 ∨ p = 256 ∨ p = 1024

/-- A call of one of the functions of the pulse train registry, with its
arguments. -/
inductive registry_call
  | call_pNewPTrain
  | call__pSetPulseUS (ptrain_index period pulse_width period_num_limit prescale : Nat)
  | call_pSetPulseUS (ptrain_index period pulse_width period_num_limit : Nat)
  | call_pSetPulseOnlyUS (ptrain_index pulse_width : Nat)
  | call_pSetPeriodOnlyUS (ptrain_index period : Nat)
  | call_pSetPeriodNumberOnly (ptrain_index period_num_limit : Nat)

/-- The state after one registry call. -/
def apply_call (CLOCKCYCLESPERMICROSECOND : Nat) : registry_call → State → State
  | .call_pNewPTrain, s => (pNewPTrain s).2
  | .call__pSetPulseUS i period pulse limit prescale, s =>
    (_pSetPulseUS CLOCKCYCLESPERMICROSECOND i period pulse limit prescale s).2
  | .call_pSetPulseUS i period pulse limit, s =>
    (pSetPulseUS CLOCKCYCLESPERMICROSECOND i period pulse limit s).2
  | .call_pSetPulseOnlyUS i pulse, s => (pSetPulseOnlyUS CLOCKCYCLESPERMICROSECOND i pulse s).2
  | .call_pSetPeriodOnlyUS i period, s =>
    (pSetPeriodOnlyUS CLOCKCYCLESPERMICROSECOND i period s).2
  | .call_pSetPeriodNumberOnly i limit, s => (pSetPeriodNumberOnly i limit s).2

/-- The state after a sequence of registry calls, first call first. -/
def apply_calls (CLOCKCYCLESPERMICROSECOND : Nat) : List registry_call → State → State
  | [], s => s
  | c :: cs, s => apply_calls CLOCKCYCLESPERMICROSECOND cs (apply_call CLOCKCYCLESPERMICROSECOND c s)

/-- The narrow setters have no test of the train index: a call of one of them
stays inside the array `ptrains` when its index is below `NUMBER_OF_PTRAINS`.
The other registry functions test the index themselves. -/
def writes_inside_ptrains : registry_call → Prop
  | .call_pSetPulseOnlyUS i _ => i < NUMBER_OF_PTRAINS
  | .call_pSetPeriodOnlyUS i _ => i < NUMBER_OF_PTRAINS
  | .call_pSetPeriodNumberOnly i _ => i < NUMBER_OF_PTRAINS
  | _ => True

/-- The registry invariant: at most `NUMBER_OF_PTRAINS` trains are allocated
and every allocated train has a supported prescale. -/
def allocated_prescales_supported (s : State) : Prop :=
  s.ptrain_count ≤ NUMBER_OF_PTRAINS ∧
  ∀ idx, idx < s.ptrain_count → supported_prescale (s.ptrains idx).prescale

/-- When the exact quotient fits 16 bits (and the divisor is at most 1024), neither
the 32 bit product nor the 16 bit store of `US_TO_COUNTS` wraps. -/
theorem US_TO_COUNTS_fits (F us p : Nat) (hp : 0 < p) (hp2 : p ≤ 1024)
    (h : us * F / p < 2 ^ 16) : US_TO_COUNTS F us p % 2 ^ 16 = us * F / p := by
  have h1 : us * F < 2 ^ 16 * p := (Nat.div_lt_iff_lt_mul hp).mp h
  have h2 : F * us < 2 ^ 32 := by
    have : 2 ^ 16 * p ≤ 2 ^ 16 * 1024 := Nat.mul_le_mul_left _ hp2
    rw [Nat.mul_comm F us]; omega
  unfold US_TO_COUNTS
  rw [Nat.mod_eq_of_lt h2, Nat.mul_comm F us, Nat.mod_eq_of_lt h]

/-- The prescale stored by `_pSetPulseUS` is one of the five supported factors. -/
theorem stored_prescale_cases (prescale : Nat) :
    stored_prescale prescale = 1 ∨ stored_prescale prescale = 8 ∨
    stored_prescale prescale = 64 ∨ stored_prescale prescale = 256 ∨
    stored_prescale prescale = 1024 := by
  unfold stored_prescale
  split_ifs with h
  · omega
  · simp

/-- The state that an accepted `_pSetPulseUS` leaves. -/
theorem _pSetPulseUS_accepts (F idx period pulse limit prescale : Nat) (s : State)
    (hidx : idx < NUMBER_OF_PTRAINS) (hv : pulse < period ∨ period = 0) :
    _pSetPulseUS F idx period pulse limit prescale s =
      (0, set_ptrain s idx
        { s.ptrains idx with
          prescale := stored_prescale prescale
          period_counts := US_TO_COUNTS F period (stored_prescale prescale) % 2 ^ 16
          pulse_counts := US_TO_COUNTS F pulse (stored_prescale prescale) % 2 ^ 16
          period_num_limit := limit }) := by
  unfold _pSetPulseUS
  simp [hidx, hv, set_ptrain]

/-- C1 (amended): for every train index below `NUMBER_OF_PTRAINS` (hence every
allocated train) and every `pulse < period`, when
`floor(period * CLOCKCYCLESPERMICROSECOND / prescale)` fits the 16 bit count
field, `_pSetPulseUS` returns 0 and the read back period and pulse counts are
`floor(period * CLOCKCYCLESPERMICROSECOND / prescale)` and
`floor(pulse * CLOCKCYCLESPERMICROSECOND / prescale)`, with `prescale` the
prescale of the train after the call. -/
theorem C1_readback (F idx period pulse limit prescale : Nat) (s : State)
    (hidx : idx < NUMBER_OF_PTRAINS) (hlt : pulse < period)
    (hfit : period * F /
      ((_pSetPulseUS F idx period pulse limit prescale s).2.ptrains idx).prescale < 2 ^ 16) :
    (_pSetPulseUS F idx period pulse limit prescale s).1 = 0 ∧
    pGetPeriodCounts idx (_pSetPulseUS F idx period pulse limit prescale s).2 =
      period * F /
        ((_pSetPulseUS F idx period pulse limit prescale s).2.ptrains idx).prescale ∧
    pGetPulseCounts idx (_pSetPulseUS F idx period pulse limit prescale s).2 =
      pulse * F /
        ((_pSetPulseUS F idx period pulse limit prescale s).2.ptrains idx).prescale := by
  rw [_pSetPulseUS_accepts F idx period pulse limit prescale s hidx (Or.inl hlt)] at hfit ⊢
  simp only [set_ptrain, Function.update_same, pGetPeriodCounts, pGetPulseCounts] at hfit ⊢
  have hq := stored_prescale_cases prescale
  have hq0 : 0 < stored_prescale prescale := by omega
  have hq1 : stored_prescale prescale ≤ 1024 := by omega
  have hpulse : pulse * F / stored_prescale prescale < 2 ^ 16 :=
    lt_of_le_of_lt (Nat.div_le_div_right (Nat.mul_le_mul_right F (le_of_lt hlt))) hfit
  exact ⟨trivial, US_TO_COUNTS_fits F period _ hq0 hq1 hfit,
    US_TO_COUNTS_fits F pulse _ hq0 hq1 hpulse⟩

/-- C1, instance of the amended statement: 100 us / 20 us at 16 cycles per
microsecond and prescale 8 read back as 200 and 40 counts. -/
theorem C1_readback_witness :
    pGetPeriodCounts 0 (_pSetPulseUS 16 0 100 20 5 8 (pNewPTrain initial_state).2).2 = 200 ∧
    pGetPulseCounts 0 (_pSetPulseUS 16 0 100 20 5 8 (pNewPTrain initial_state).2).2 = 40 :=
  (C1_readback 16 0 100 20 5 8 (pNewPTrain initial_state).2 (by decide) (by decide)
    (by decide)).2

/-- C1 as stated fails: on the allocated train 0, at 16 cycles per microsecond,
a period of 100000 us with a pulse of 50000 us and prescale 8 is accepted, and
the period count read back is 3392, not `100000 * 16 / 8 = 200000`. -/
theorem C1_counterexample :
    (50000 : Nat) < 100000 ∧ (100000 : Nat) < 2 ^ 32 ∧
    pIsValidPTrain 0 (pNewPTrain initial_state).2 = true ∧
    (_pSetPulseUS 16 0 100000 50000 1 8 (pNewPTrain initial_state).2).1 = 0 ∧
    ((_pSetPulseUS 16 0 100000 50000 1 8 (pNewPTrain initial_state).2).2.ptrains 0).prescale
      = 8 ∧
    pGetPeriodCounts 0 (_pSetPulseUS 16 0 100000 50000 1 8 (pNewPTrain initial_state).2).2
      = 3392 ∧
    pGetPeriodCounts 0 (_pSetPulseUS 16 0 100000 50000 1 8 (pNewPTrain initial_state).2).2
      ≠ 100000 * 16 / 8 := by
  decide

/-- C2: for every train index below `NUMBER_OF_PTRAINS`, a configure with
`pulse >= period` and `period != 0` returns `ERROR_TIMER_COUNT` and leaves the
whole state as it was, through `_pSetPulseUS` and through `pSetPulseUS`. -/
theorem C2_rejects (F idx period pulse limit prescale : Nat) (s : State)
    (hidx : idx < NUMBER_OF_PTRAINS) (hperiod : period ≠ 0) (hge : period ≤ pulse) :
    _pSetPulseUS F idx period pulse limit prescale s = (ERROR_TIMER_COUNT, s) ∧
    pSetPulseUS F idx period pulse limit s = (ERROR_TIMER_COUNT, s) := by
  have h : ¬ (pulse < period ∨ period = 0) := by omega
  unfold pSetPulseUS _pSetPulseUS
  simp [hidx, h]


/-- C2, instance: on the allocated train 0 a pulse of 100 us with a period of
100 us is refused with `ERROR_TIMER_COUNT` and the state is unchanged. -/
theorem C2_rejects_witness :
    _pSetPulseUS 16 0 100 100 5 8 (pNewPTrain initial_state).2 =
      (ERROR_TIMER_COUNT, (pNewPTrain initial_state).2) ∧
    pSetPulseUS 16 0 100 100 5 (pNewPTrain initial_state).2 =
      (ERROR_TIMER_COUNT, (pNewPTrain initial_state).2) :=
  C2_rejects 16 0 100 100 5 8 (pNewPTrain initial_state).2 (by decide) (by decide) (by decide)

/-- `same_setup` is reflexive. -/
theorem same_setup_refl (t : timers16bit_t) (a : State) : same_setup t a a :=
  ⟨rfl, rfl, rfl, rfl, rfl, rfl⟩

/-- `same_setup` is transitive. -/
theorem same_setup_trans {t : timers16bit_t} {a b c : State}
    (h1 : same_setup t a b) (h2 : same_setup t b c) : same_setup t a c := by
  obtain ⟨a1, a2, a3, a4, a5, a6⟩ := h1
  obtain ⟨b1, b2, b3, b4, b5, b6⟩ := h2
  exact ⟨a1.trans b1, a2.trans b2, a3.trans b3, a4.trans b4, a5.trans b5, a6.trans b6⟩

/-- The pin writes of a timer depend on the setup only. -/
theorem pin_writes_congr {t : timers16bit_t} {a b : State} (h : same_setup t a b)
    (level : pin_level) : pin_writes a t level = pin_writes b t level := by
  obtain ⟨h1, h2, h3, _⟩ := h
  simp [pin_writes, ptrain_idxs_read, h1, h2, h3]

/-- Inside the array a read of `ptrain_idxs` is the element. -/
theorem ptrain_idxs_read_inside (c : timer16control_t) (i : Nat)
    (h : i < PTRAINS_PER_TIMER) : ptrain_idxs_read c i = c.ptrain_idxs i := by
  unfold ptrain_idxs_read
  rw [if_neg (Nat.ne_of_lt h)]

/-- On a timer whose members fit the array, the pin loop of the handler makes
one `digitalWrite` for every member, in the order of the member list, on the
pin of that member and at the level of the loop. -/
theorem pin_writes_inside (s : State) (t : timers16bit_t) (level : pin_level)
    (h : (s.timer_array t).number_of_ptrains ≤ PTRAINS_PER_TIMER) :
    pin_writes s t level =
      (List.range (s.timer_array t).number_of_ptrains).map
        (fun i => digitalWrite (s.ptrains ((s.timer_array t).ptrain_idxs i)).pin level) := by
  unfold pin_writes
  apply List.map_congr_left
  intro i hi
  rw [ptrain_idxs_read_inside _ i (lt_of_lt_of_le (List.mem_range.mp hi) h)]

/-- The interrupt handler changes neither the trains nor the members and
aggregate counts of its timer. -/
theorem pHandleInterrupts_same_setup (t : timers16bit_t) (s : State) :
    same_setup t (pHandleInterrupts t s) s := by
  cases h : (s.timer_array t).pulsed_state <;>
    simp only [pHandleInterrupts, same_setup, h] <;> (try split_ifs) <;>
    simp [set_timer, set_registers, pStopTimer]

/-- What a `PPULSE_LO` step of the handler does. -/
theorem low_step (t : timers16bit_t) (s : State)
    (h : (s.timer_array t).pulsed_state = PPULSE_LO) :
    ((pHandleInterrupts t s).timer_array t).pulsed_state = PPULSE_HI ∧
    ((pHandleInterrupts t s).timer_array t).number_of_periods =
      ((s.timer_array t).number_of_periods + 1) % 2 ^ 16 ∧
    ((pHandleInterrupts t s).registers t).TCNTn = 0 ∧
    ((pHandleInterrupts t s).registers t).OCRnA = (s.timer_array t).pulse_counts ∧
    ((pHandleInterrupts t s).registers t).TCCRnB = (s.registers t).TCCRnB ∧
    ((pHandleInterrupts t s).registers t).TIMSKn = (s.registers t).TIMSKn ∧
    (pHandleInterrupts t s).pin_calls = s.pin_calls ++ pin_writes s t HIGH := by
  unfold pHandleInterrupts
  simp [h, set_timer, set_registers]

/-- What a `PPULSE_HI` step of the handler does. -/
theorem high_step (t : timers16bit_t) (s : State)
    (h : (s.timer_array t).pulsed_state = PPULSE_HI) :
    ((pHandleInterrupts t s).timer_array t).pulsed_state = PPULSE_LO ∧
    ((pHandleInterrupts t s).timer_array t).number_of_periods =
      (s.timer_array t).number_of_periods ∧
    ((pHandleInterrupts t s).registers t).OCRnA = (s.timer_array t).period_counts ∧
    ((pHandleInterrupts t s).registers t).TCCRnB =
      (if (s.timer_array t).number_of_periods ≥ (s.timer_array t).period_num_limit
       then (s.registers t).TCCRnB &&& 0xF8 else (s.registers t).TCCRnB) ∧
    ((pHandleInterrupts t s).registers t).TIMSKn =
      (if (s.timer_array t).number_of_periods ≥ (s.timer_array t).period_num_limit
       then (s.registers t).TIMSKn &&& (0xFF - _BV OCIEnA) else (s.registers t).TIMSKn) ∧
    (pHandleInterrupts t s).pin_calls = s.pin_calls ++ pin_writes s t LOW := by
  unfold pHandleInterrupts
  simp only [h]
  split_ifs <;> simp_all [set_timer, set_registers, pStopTimer]

/-- Bit 1 is set after or-ing with 2. -/
theorem or_two_and_two (x : Nat) : (x ||| 2) &&& 2 ≠ 0 := by
  intro h
  have h1 := congrArg (fun y => Nat.testBit y 1) h
  have h2 : Nat.testBit 2 1 = true := by decide
  simp [h2] at h1

/-- Bit 1 is clear after and-ing with `0xFD`. -/
theorem and_253_and_two (x : Nat) : (x &&& 253) &&& 2 = 0 := by
  rw [Nat.and_assoc, show (253 : Nat) &&& 2 = 0 from by decide, Nat.and_zero]

/-- The low three bits are clear after and-ing with `0xF8`. -/
theorem and_248_and_seven (x : Nat) : (x &&& 248) &&& 7 = 0 := by
  rw [Nat.and_assoc, show (248 : Nat) &&& 7 = 0 from by decide, Nat.and_zero]

/-- The bit value of `OCIEnA`. -/
@[simp]
theorem BV_OCIEnA : _BV OCIEnA = 2 := rfl

/-- The low three bits of an or, when they were clear before. -/
theorem or_and_seven (x b : Nat) (h : x &&& 7 = 0) : (x ||| b) &&& 7 = b &&& 7 := by
  rw [Nat.and_distrib_right, h, Nat.zero_or]

/-- The low three bits stay clear under and. -/
theorem and_and_seven (x b : Nat) (h : x &&& 7 = 0) : (x &&& b) &&& 7 = 0 := by
  rw [Nat.and_assoc, Nat.and_comm b 7, ← Nat.and_assoc, h, Nat.zero_and]

/-- After `pStopTimer` the timer is inactive and its compare interrupt disabled. -/
theorem pStopTimer_inactive (t : timers16bit_t) (s : State) :
    pIsTimerActive t (pStopTimer t s).2 = false ∧
    compare_interrupt_enabled t (pStopTimer t s).2 = false := by
  simp [pIsTimerActive, compare_interrupt_enabled, pStopTimer, set_registers,
    and_253_and_two, and_248_and_seven]

/-- A `pStartTimer` that returns 0 found the timer inactive and with a member. -/
theorem pStartTimer_ok (t : timers16bit_t) (s : State) (h : (pStartTimer t s).1 = 0) :
    pIsTimerActive t s = false ∧ 0 < (s.timer_array t).number_of_ptrains := by
  by_contra hc
  simp [pStartTimer, hc] at h

/-- The state that a successful `pStartTimer` leaves. -/
theorem pStartTimer_started (t : timers16bit_t) (s : State) (h : (pStartTimer t s).1 = 0) :
    same_setup t (pStartTimer t s).2 s ∧
    (((pStartTimer t s).2).timer_array t).pulsed_state =
      (if (s.timer_array t).period_counts = 0 then PDC_INIT else PPULSE_LO) ∧
    (((pStartTimer t s).2).timer_array t).number_of_periods = 0 ∧
    ((pStartTimer t s).2).pin_calls = s.pin_calls ∧
    compare_interrupt_enabled t (pStartTimer t s).2 = true ∧
    (t ≠ PTIMER3 → (s.timer_array t).bit_prescale &&& 7 ≠ 0 →
      pIsTimerActive t (pStartTimer t s).2 = true) := by
  have hc := pStartTimer_ok t s h
  have h7 : (s.registers t).TCCRnB &&& 7 = 0 := by
    have := hc.1
    simp [pIsTimerActive] at this
    exact this
  unfold pStartTimer
  rw [if_pos hc]
  cases t <;>
    simp [pEnableISR, same_setup, set_timer, set_registers, compare_interrupt_enabled,
      pIsTimerActive, or_two_and_two, or_and_seven _ _ h7]

/-- Any number of interrupts leaves the setup of the timer as it was. -/
theorem interrupts_same_setup (t : timers16bit_t) (s : State) (k : Nat) :
    same_setup t (interrupts t k s) s := by
  induction k with
  | zero => exact same_setup_refl t s
  | succ k ih => exact same_setup_trans (pHandleInterrupts_same_setup t _) ih

/-- One period of a variable duty run: a low phase step and a high phase
step, from a state between two periods. -/
theorem variable_duty_period (t : timers16bit_t) (s1 s : State) (j : Nat)
    (hs : same_setup t s s1) (hb : between_periods t s1 s j) (hj : j + 1 < 2 ^ 16) :
    ((pHandleInterrupts t s).timer_array t).pulsed_state = PPULSE_HI ∧
    ((pHandleInterrupts t s).timer_array t).number_of_periods = j + 1 ∧
    ((pHandleInterrupts t s).registers t).TCNTn = 0 ∧
    ((pHandleInterrupts t s).registers t).OCRnA = (s1.timer_array t).pulse_counts ∧
    ((pHandleInterrupts t s).registers t).TCCRnB = (s1.registers t).TCCRnB ∧
    ((pHandleInterrupts t s).registers t).TIMSKn = (s1.registers t).TIMSKn ∧
    (pHandleInterrupts t s).pin_calls = s.pin_calls ++ pin_writes s1 t HIGH ∧
    ((pHandleInterrupts t (pHandleInterrupts t s)).timer_array t).pulsed_state = PPULSE_LO ∧
    ((pHandleInterrupts t (pHandleInterrupts t s)).timer_array t).number_of_periods = j + 1 ∧
    ((pHandleInterrupts t (pHandleInterrupts t s)).registers t).TCCRnB =
      (if j + 1 ≥ (s1.timer_array t).period_num_limit
       then (s1.registers t).TCCRnB &&& 0xF8 else (s1.registers t).TCCRnB) ∧
    ((pHandleInterrupts t (pHandleInterrupts t s)).registers t).TIMSKn =
      (if j + 1 ≥ (s1.timer_array t).period_num_limit
       then (s1.registers t).TIMSKn &&& (0xFF - _BV OCIEnA) else (s1.registers t).TIMSKn) ∧
    (pHandleInterrupts t (pHandleInterrupts t s)).pin_calls =
      (pHandleInterrupts t s).pin_calls ++ pin_writes s1 t LOW := by
  obtain ⟨h1, h2, h3, h4, _⟩ := hb
  have hs1 : same_setup t (pHandleInterrupts t s) s1 :=
    same_setup_trans (pHandleInterrupts_same_setup t s) hs
  obtain ⟨l1, l2, l3, l4, l5, l6, l7⟩ := low_step t s h1
  obtain ⟨g1, g2, _, g4, g5, g6⟩ := high_step t (pHandleInterrupts t s) l1
  have hper : ((pHandleInterrupts t s).timer_array t).number_of_periods = j + 1 := by
    rw [l2, h2]; exact Nat.mod_eq_of_lt hj
  rw [hper, hs1.2.2.2.1, l5, h3] at g4
  rw [hper, hs1.2.2.2.1, l6, h4] at g5
  rw [pin_writes_congr hs1] at g6
  rw [pin_writes_congr hs] at l7
  exact ⟨l1, hper, l3, l4.trans hs.2.2.2.2.1, l5.trans h3, l6.trans h4, l7, g1,
    g2.trans hper, g4, g5, g6⟩

/-- One more interrupt of a started run. -/
theorem started_run_succ (t : timers16bit_t) (s0 : State) (k : Nat) :
    started_run t s0 (k + 1) = pHandleInterrupts t (started_run t s0 k) := rfl

/-- What a `PDC_INIT` step (also taken from `POFF`) of the handler does. -/
theorem init_step (t : timers16bit_t) (s : State)
    (h : (s.timer_array t).pulsed_state = PDC_INIT ∨ (s.timer_array t).pulsed_state = POFF) :
    ((pHandleInterrupts t s).timer_array t).pulsed_state = PDC_RUNNING ∧
    ((pHandleInterrupts t s).timer_array t).number_of_periods =
      (s.timer_array t).number_of_periods ∧
    ((pHandleInterrupts t s).registers t).TCNTn = 0 ∧
    ((pHandleInterrupts t s).registers t).OCRnA = (s.timer_array t).pulse_counts ∧
    ((pHandleInterrupts t s).registers t).TCCRnB = (s.registers t).TCCRnB ∧
    ((pHandleInterrupts t s).registers t).TIMSKn = (s.registers t).TIMSKn ∧
    (pHandleInterrupts t s).pin_calls = s.pin_calls ++ pin_writes s t HIGH := by
  unfold pHandleInterrupts
  rcases h with h | h <;> simp [h, set_timer, set_registers]

/-- What a `PDC_RUNNING` step of the handler does. -/
theorem running_step (t : timers16bit_t) (s : State)
    (h : (s.timer_array t).pulsed_state = PDC_RUNNING) :
    ((pHandleInterrupts t s).timer_array t).pulsed_state = PDC_RUNNING ∧
    ((pHandleInterrupts t s).timer_array t).number_of_periods =
      ((s.timer_array t).number_of_periods + 1) % 2 ^ 16 ∧
    ((pHandleInterrupts t s).registers t).TCNTn = 0 ∧
    ((pHandleInterrupts t s).registers t).TCCRnB =
      (if ((s.timer_array t).number_of_periods + 1) % 2 ^ 16 ≥ (s.timer_array t).period_num_limit
       then (s.registers t).TCCRnB &&& 0xF8 else (s.registers t).TCCRnB) ∧
    ((pHandleInterrupts t s).registers t).TIMSKn =
      (if ((s.timer_array t).number_of_periods + 1) % 2 ^ 16 ≥ (s.timer_array t).period_num_limit
       then (s.registers t).TIMSKn &&& (0xFF - _BV OCIEnA) else (s.registers t).TIMSKn) ∧
    (pHandleInterrupts t s).pin_calls =
      (if ((s.timer_array t).number_of_periods + 1) % 2 ^ 16 ≥ (s.timer_array t).period_num_limit
       then s.pin_calls ++ pin_writes s t LOW else s.pin_calls) := by
  by_cases hc : (s.timer_array t).period_num_limit ≤
      ((s.timer_array t).number_of_periods + 1) % 65536
  · simp [pHandleInterrupts, h, set_timer, set_registers, pStopTimer, hc]
  · simp [pHandleInterrupts, h, set_timer, set_registers, pStopTimer, hc]

/-- In a continuous run with limit `n`, the state after `i + 1` interrupts,
`i < n`, is running with `i` periods counted and no LOW write made. -/
theorem continuous_running (t : timers16bit_t) (s1 : State) (n : Nat)
    (hINIT : (s1.timer_array t).pulsed_state = PDC_INIT)
    (hzero : (s1.timer_array t).number_of_periods = 0)
    (hlimit : (s1.timer_array t).period_num_limit = n) (hn16 : n < 2 ^ 16) :
    ∀ i, i < n ∨ i = 0 → during_continuous t s1 (interrupts t (i + 1) s1) i := by
  intro i
  induction i with
  | zero =>
    intro _
    obtain ⟨a1, a2, _, _, a5, a6, a7⟩ := init_step t s1 (Or.inl hINIT)
    exact ⟨a1, a2.trans hzero, a5, a6, a7⟩
  | succ i ih =>
    intro hi
    obtain ⟨b1, b2, b3, b4, b5⟩ := ih (by omega)
    have hs := interrupts_same_setup t s1 (i + 1)
    obtain ⟨r1, r2, _, r4, r5, r6⟩ := running_step t (interrupts t (i + 1) s1) b1
    have hno : ¬ ((((interrupts t (i + 1) s1).timer_array t).number_of_periods + 1) % 2 ^ 16 ≥
        ((interrupts t (i + 1) s1).timer_array t).period_num_limit) := by
      rw [b2, hs.2.2.2.1, hlimit, Nat.mod_eq_of_lt (by omega)]; omega
    rw [if_neg hno] at r4 r5 r6
    refine ⟨r1, ?_, r4.trans b3, r5.trans b4, r6.trans b5⟩
    show ((pHandleInterrupts t _).timer_array t).number_of_periods = i + 1
    rw [r2, b2]; exact Nat.mod_eq_of_lt (by omega)


/-- A started run keeps the setup of the timer. -/
theorem started_run_same_setup (t : timers16bit_t) (s0 : State) (k : Nat) :
    same_setup t (started_run t s0 k) (pStartTimer t s0).2 :=
  interrupts_same_setup t (pStartTimer t s0).2 k

/-- The continuous mode run in terms of the pin loop of the handler. -/
theorem continuous_run (t : timers16bit_t) (s0 : State) (n : Nat)
    (hstart : (pStartTimer t s0).1 = 0)
    (hperiod : (s0.timer_array t).period_counts = 0)
    (hlimit : (s0.timer_array t).period_num_limit = n) (hn : 1 ≤ n) (hn16 : n < 2 ^ 16) :
    ((started_run t s0 0).timer_array t).pulsed_state = PDC_INIT ∧
    (started_run t s0 1).pin_calls = s0.pin_calls ++ pin_writes s0 t HIGH ∧
    (∀ i, i < n →
      ((started_run t s0 (i + 1)).timer_array t).pulsed_state = PDC_RUNNING ∧
      ((started_run t s0 (i + 1)).timer_array t).number_of_periods = i ∧
      ((started_run t s0 (i + 2)).timer_array t).number_of_periods = i + 1 ∧
      (started_run t s0 (i + 1)).pin_calls = s0.pin_calls ++ pin_writes s0 t HIGH ∧
      compare_interrupt_enabled t (started_run t s0 (i + 1)) = true ∧
      pIsTimerActive t (started_run t s0 (i + 1)) = pIsTimerActive t (started_run t s0 0)) ∧
    (t ≠ PTIMER3 → (s0.timer_array t).bit_prescale &&& 7 ≠ 0 →
      ∀ k, k ≤ n → pIsTimerActive t (started_run t s0 k) = true) ∧
    (started_run t s0 (n + 1)).pin_calls =
      s0.pin_calls ++ pin_writes s0 t HIGH ++ pin_writes s0 t LOW ∧
    compare_interrupt_enabled t (started_run t s0 (n + 1)) = false ∧
    pIsTimerActive t (started_run t s0 (n + 1)) = false ∧
    ((started_run t s0 (n + 1)).timer_array t).number_of_periods = n := by
  obtain ⟨q1, q2, q3, q4, q5, q6⟩ := pStartTimer_started t s0 hstart
  rw [if_pos hperiod] at q2
  have hlim1 : (((pStartTimer t s0).2).timer_array t).period_num_limit = n := by
    rw [q1.2.2.2.1, hlimit]
  have hrun : ∀ i, i < n →
      during_continuous t (pStartTimer t s0).2 (started_run t s0 (i + 1)) i :=
    fun i hi => continuous_running t (pStartTimer t s0).2 n q2 q3 hlim1 hn16 i (Or.inl hi)
  have hstep := fun i (hi : i < n) =>
    running_step t (started_run t s0 (i + 1)) (hrun i hi).1
  simp only [← started_run_succ] at hstep
  have hper : ∀ i, i < n →
      (((started_run t s0 (i + 1)).timer_array t).number_of_periods + 1) % 2 ^ 16 = i + 1 := by
    intro i hi
    rw [(hrun i hi).2.1]; exact Nat.mod_eq_of_lt (by omega)
  have hlimi : ∀ i, ((started_run t s0 (i + 1)).timer_array t).period_num_limit = n := by
    intro i
    rw [(started_run_same_setup t s0 (i + 1)).2.2.2.1, hlim1]
  have hfacts : ∀ i, i < n →
      compare_interrupt_enabled t (started_run t s0 (i + 1)) = true ∧
      pIsTimerActive t (started_run t s0 (i + 1)) = pIsTimerActive t (started_run t s0 0) := by
    intro i hi
    obtain ⟨_, _, b3, b4, _⟩ := hrun i hi
    constructor
    · unfold compare_interrupt_enabled at q5 ⊢
      rw [b4]; exact q5
    · unfold pIsTimerActive
      rw [b3]; rfl
  obtain ⟨m, rfl⟩ : ∃ m, n = m + 1 := ⟨n - 1, by omega⟩
  obtain ⟨_, f2, _, f4, f5, f6⟩ := hstep m (by omega)
  rw [hper m (by omega), hlimi m, if_pos (le_refl _)] at f4 f5 f6
  rw [hper m (by omega)] at f2
  refine ⟨q2, ?_, ?_, ?_, ?_, ?_, ?_, f2⟩
  · have h0 := (hrun 0 (by omega)).2.2.2.2
    rw [q4, pin_writes_congr q1] at h0
    exact h0
  · intro i hi
    obtain ⟨b1, b2, _, _, b5⟩ := hrun i hi
    rw [q4, pin_writes_congr q1] at b5
    have h2 := (hstep i hi).2.1
    rw [hper i hi] at h2
    exact ⟨b1, b2, h2, b5, hfacts i hi⟩
  · intro h3 hbp k hk
    rcases k with _ | i
    · exact q6 h3 hbp
    · rw [(hfacts i (by omega)).2]
      exact q6 h3 hbp
  · rw [f6, (hrun m (by omega)).2.2.2.2, q4,
      pin_writes_congr (started_run_same_setup t s0 (m + 1)),
      pin_writes_congr q1, pin_writes_congr q1]
  · unfold compare_interrupt_enabled
    rw [f5]; simp [and_253_and_two]
  · unfold pIsTimerActive
    rw [f4]; simp [and_248_and_seven]

/-- C4: continuous mode run.  After a successful `pStartTimer` on a timer
whose members fit the array, with aggregate `period_counts = 0` and
`period_num_limit = n >= 1` (a `uint16_t`, so `n < 2^16`), the first interrupt
(state `PDC_INIT`) makes one `digitalWrite` HIGH on the pin of every member,
in the order of the member list; each of the next interrupts counts one
period; up to and including interrupt `n` no further pin call is made and the
timer is not stopped; interrupt `n + 1`, at which `number_of_periods` becomes
`n`, makes one `digitalWrite` LOW on the pin of every member and stops the
timer, so that `pIsTimerActive` is false and `number_of_periods = n`. -/
theorem C4_continuous_run (t : timers16bit_t) (s0 : State) (n : Nat)
    (hstart : (pStartTimer t s0).1 = 0)
    (hperiod : (s0.timer_array t).period_counts = 0)
    (hlimit : (s0.timer_array t).period_num_limit = n) (hn : 1 ≤ n) (hn16 : n < 2 ^ 16)
    (hfit : (s0.timer_array t).number_of_ptrains ≤ PTRAINS_PER_TIMER) :
    ((started_run t s0 0).timer_array t).pulsed_state = PDC_INIT ∧
    (started_run t s0 1).pin_calls =
      s0.pin_calls ++
        (List.range (s0.timer_array t).number_of_ptrains).map
          (fun i => digitalWrite (s0.ptrains ((s0.timer_array t).ptrain_idxs i)).pin HIGH) ∧
    (∀ i, i < n →
      ((started_run t s0 (i + 1)).timer_array t).pulsed_state = PDC_RUNNING ∧
      ((started_run t s0 (i + 1)).timer_array t).number_of_periods = i ∧
      ((started_run t s0 (i + 2)).timer_array t).number_of_periods = i + 1 ∧
      (started_run t s0 (i + 1)).pin_calls =
        s0.pin_calls ++
          (List.range (s0.timer_array t).number_of_ptrains).map
            (fun i => digitalWrite (s0.ptrains ((s0.timer_array t).ptrain_idxs i)).pin HIGH) ∧
      compare_interrupt_enabled t (started_run t s0 (i + 1)) = true ∧
      pIsTimerActive t (started_run t s0 (i + 1)) = pIsTimerActive t (started_run t s0 0)) ∧
    (t ≠ PTIMER3 → (s0.timer_array t).bit_prescale &&& 7 ≠ 0 →
      ∀ k, k ≤ n → pIsTimerActive t (started_run t s0 k) = true) ∧
    (started_run t s0 (n + 1)).pin_calls =
      s0.pin_calls ++
        (List.range (s0.timer_array t).number_of_ptrains).map
          (fun i => digitalWrite (s0.ptrains ((s0.timer_array t).ptrain_idxs i)).pin HIGH) ++
        (List.range (s0.timer_array t).number_of_ptrains).map
          (fun i => digitalWrite (s0.ptrains ((s0.timer_array t).ptrain_idxs i)).pin LOW) ∧
    compare_interrupt_enabled t (started_run t s0 (n + 1)) = false ∧
    pIsTimerActive t (started_run t s0 (n + 1)) = false ∧
    ((started_run t s0 (n + 1)).timer_array t).number_of_periods = n := by
  have hH := pin_writes_inside s0 t HIGH hfit
  have hL := pin_writes_inside s0 t LOW hfit
  have h := continuous_run t s0 n hstart hperiod hlimit hn hn16
  rw [hH, hL] at h
  exact h

/-- C4, the instance of the specification: continuous mode with limit 3 on
`PTIMER1`; the pin calls of the run are `digitalWrite(13, HIGH)` at the first
interrupt and `digitalWrite(13, LOW)` at the fourth, after which the timer is
inactive with 3 periods counted. -/
theorem C4_continuous_run_witness :
    (pStartTimer PTIMER1 (one_train 0 10 3)).1 = 0 ∧
    ((one_train 0 10 3).timer_array PTIMER1).period_counts = 0 ∧
    ((one_train 0 10 3).timer_array PTIMER1).period_num_limit = 3 ∧
    (started_run PTIMER1 (one_train 0 10 3) 3).pin_calls =
      [pinMode_OUTPUT 13, digitalWrite 13 HIGH] ∧
    (started_run PTIMER1 (one_train 0 10 3) 4).pin_calls =
      [pinMode_OUTPUT 13, digitalWrite 13 HIGH, digitalWrite 13 LOW] ∧
    pIsTimerActive PTIMER1 (started_run PTIMER1 (one_train 0 10 3) 4) = false ∧
    ((started_run PTIMER1 (one_train 0 10 3) 4).timer_array PTIMER1).number_of_periods = 3 :=
  have h := C4_continuous_run PTIMER1 (one_train 0 10 3) 3 (by decide) (by decide)
    (by decide) (by decide) (by decide) (by decide)
  ⟨by decide, by decide, by decide, (h.2.2.1 2 (by decide)).2.2.2.1.trans (by decide),
    h.2.2.2.2.1.trans (by decide), h.2.2.2.2.2.2.1, h.2.2.2.2.2.2.2⟩

/-- The state that `pAttach` leaves on a timer with a free slot, for a train
index below `NUMBER_OF_PTRAINS`: the train is stored at index
`number_of_ptrains`, the count grows by one, and the train records the new
count as its `timer_index`. -/
theorem pAttach_timer (idx : Nat) (pin : Int) (t : timers16bit_t) (s : State)
    (hidx : idx < NUMBER_OF_PTRAINS)
    (hfree : (s.timer_array t).number_of_ptrains < PTRAINS_PER_TIMER) :
    (pAttach idx pin t s).1 = idx ∧
    (((pAttach idx pin t s).2).timer_array t).ptrain_idxs =
      Function.update (s.timer_array t).ptrain_idxs (s.timer_array t).number_of_ptrains idx ∧
    (((pAttach idx pin t s).2).timer_array t).number_of_ptrains =
      (s.timer_array t).number_of_ptrains + 1 ∧
    (((pAttach idx pin t s).2).ptrains idx).timer_index =
      (s.timer_array t).number_of_ptrains + 1 ∧
    (((pAttach idx pin t s).2).ptrains idx).timer_number = t ∧
    (∀ j, j ≠ idx → ((pAttach idx pin t s).2).ptrains j = s.ptrains j) := by
  have hne : (s.timer_array t).number_of_ptrains ≠ PTRAINS_PER_TIMER := Nat.ne_of_lt hfree
  have hmod : ((s.timer_array t).number_of_ptrains + 1) % 256 =
      (s.timer_array t).number_of_ptrains + 1 :=
    Nat.mod_eq_of_lt (by have : PTRAINS_PER_TIMER = 12 := rfl; omega)
  unfold pAttach
  simp [hidx, pAddToTimer, pReloadToTimer, pSetTimerPrescale, set_timer, set_ptrain,
    ptrain_idxs_write, hne, hmod]
  intro j hj
  simp [Function.update_noteq hj]

/-- The state that `pAttach` leaves on a full timer, for a train index below
`NUMBER_OF_PTRAINS`: the store of the train index lands in `number_of_ptrains`,
which is then incremented; the twelve elements of the array are untouched. -/
theorem pAttach_full_timer (idx : Nat) (pin : Int) (t : timers16bit_t) (s : State)
    (hidx : idx < NUMBER_OF_PTRAINS)
    (hfull : (s.timer_array t).number_of_ptrains = PTRAINS_PER_TIMER) :
    (pAttach idx pin t s).1 = idx ∧
    (((pAttach idx pin t s).2).timer_array t).ptrain_idxs = (s.timer_array t).ptrain_idxs ∧
    (((pAttach idx pin t s).2).timer_array t).number_of_ptrains = idx + 1 ∧
    (((pAttach idx pin t s).2).ptrains idx).timer_index = idx + 1 ∧
    (((pAttach idx pin t s).2).ptrains idx).timer_number = t := by
  have hmod : (idx + 1) % 256 = idx + 1 :=
    Nat.mod_eq_of_lt (by have : NUMBER_OF_PTRAINS = 32 := rfl; omega)
  unfold pAttach
  simp [hidx, pAddToTimer, pReloadToTimer, pSetTimerPrescale, set_timer, set_ptrain,
    ptrain_idxs_write, hfull, hmod]

/-- The state that `pStop` leaves on the timer of the train, when that timer
has a member and the recorded `timer_index + 1` is not below the count: the
loop moves nothing and the count drops by one. -/
theorem pStop_timer (idx : Nat) (s : State)
    (hpos : 0 < (s.timer_array (s.ptrains idx).timer_number).number_of_ptrains)
    (hno : (s.timer_array (s.ptrains idx).timer_number).number_of_ptrains ≤
      (s.ptrains idx).timer_index + 1) :
    (pStop idx s).1 = PTRAIN_REMOVED ∧
    (((pStop idx s).2).timer_array (s.ptrains idx).timer_number).ptrain_idxs =
      (s.timer_array (s.ptrains idx).timer_number).ptrain_idxs ∧
    (((pStop idx s).2).timer_array (s.ptrains idx).timer_number).number_of_ptrains =
      (s.timer_array (s.ptrains idx).timer_number).number_of_ptrains - 1 := by
  have hslide : slide_over 256 ((s.ptrains idx).timer_index + 1)
      (s.timer_array (s.ptrains idx).timer_number) =
      s.timer_array (s.ptrains idx).timer_number := by
    show slide_over (255 + 1) _ _ = _
    rw [slide_over, if_neg (Nat.not_lt.mpr hno)]
  unfold pStop pRemoveFromTimer
  simp [hpos, set_timer, set_ptrain, hslide]

/-- C5, as the code behaves: on a timer without members, after attaching the
distinct trains `a`, `b`, `c` in that order the member list is `[a, b, c]`, and
detaching the middle train `b` with `pStop` leaves the member list `[a, b]`,
not `[a, c]`: the count drops from 3 to 2 but no member is moved, so `b` stays
and `c` is dropped. -/
theorem C5_detach_middle (a b c : Nat) (pa pb pc : Int) (t : timers16bit_t) (s : State)
    (ha : a < NUMBER_OF_PTRAINS) (hb : b < NUMBER_OF_PTRAINS) (hc : c < NUMBER_OF_PTRAINS)
    (hbc : b ≠ c)
    (hempty : (s.timer_array t).number_of_ptrains = 0) :
    members (((pAttach c pc t (pAttach b pb t (pAttach a pa t s).2).2).2).timer_array t)
      = [a, b, c] ∧
    members (((pStop b (pAttach c pc t (pAttach b pb t (pAttach a pa t s).2).2).2).2).timer_array
      t) = [a, b] ∧
    members (((pStop b (pAttach c pc t (pAttach b pb t (pAttach a pa t s).2).2).2).2).timer_array
      t) ≠ [a, c] ∧
    (((pStop b (pAttach c pc t (pAttach b pb t (pAttach a pa t s).2).2).2).2).timer_array
      t).number_of_ptrains = 2 := by
  obtain ⟨_, a2, a3, _, _, _⟩ := pAttach_timer a pa t s ha (by rw [hempty]; decide)
  rw [hempty] at a2 a3
  norm_num at a2 a3
  obtain ⟨_, b2, b3, b4, b5, _⟩ :=
    pAttach_timer b pb t (pAttach a pa t s).2 hb (by rw [a3]; decide)
  rw [a2, a3] at b2
  rw [a3] at b3 b4
  norm_num at b3 b4
  obtain ⟨_, c2, c3, _, _, c6⟩ :=
    pAttach_timer c pc t (pAttach b pb t (pAttach a pa t s).2).2 hc (by rw [b3]; decide)
  rw [b2, b3] at c2
  rw [b3] at c3
  norm_num at c3
  have hbs := c6 b hbc
  generalize (pAttach c pc t (pAttach b pb t (pAttach a pa t s).2).2).2 = s3 at *
  have htn : (s3.ptrains b).timer_number = t := by rw [hbs, b5]
  have hti : (s3.ptrains b).timer_index = 2 := by rw [hbs, b4]
  have hpos : 0 < (s3.timer_array (s3.ptrains b).timer_number).number_of_ptrains := by
    rw [htn, c3]; decide
  obtain ⟨_, d2, d3⟩ := pStop_timer b s3 hpos (by rw [htn, c3, hti])
  rw [htn] at d2 d3
  rw [c3] at d3
  have hm : members ((pStop b s3).2.timer_array t) = [a, b] := by
    simp [members, ptrain_idxs_read, d2, d3, c2, List.range_succ, Function.update]
  refine ⟨?_, hm, ?_, d3⟩
  · simp [members, ptrain_idxs_read, c2, c3, List.range_succ, Function.update]
  · rw [hm]; simp [hbc]

/-- C5, the failing input: trains 0, 1, 2 attached in that order to the empty
`PTIMER1`, then `pStop(1)`: the member list is `[0, 1]` and the count 2. -/
theorem C5_detach_middle_witness :
    members (((pAttach 2 12 PTIMER1 (pAttach 1 11 PTIMER1
      (pAttach 0 10 PTIMER1 (pNewPTrain_calls 3 initial_state)).2).2).2).timer_array PTIMER1)
      = [0, 1, 2] ∧
    members (((pStop 1 (pAttach 2 12 PTIMER1 (pAttach 1 11 PTIMER1
      (pAttach 0 10 PTIMER1 (pNewPTrain_calls 3 initial_state)).2).2).2).2).timer_array PTIMER1)
      = [0, 1] ∧
    members (((pStop 1 (pAttach 2 12 PTIMER1 (pAttach 1 11 PTIMER1
      (pAttach 0 10 PTIMER1 (pNewPTrain_calls 3 initial_state)).2).2).2).2).timer_array PTIMER1)
      ≠ [0, 2] ∧
    (((pStop 1 (pAttach 2 12 PTIMER1 (pAttach 1 11 PTIMER1
      (pAttach 0 10 PTIMER1 (pNewPTrain_calls 3 initial_state)).2).2).2).2).timer_array
      PTIMER1).number_of_ptrains = 2 :=
  C5_detach_middle 0 1 2 10 11 12 PTIMER1 (pNewPTrain_calls 3 initial_state)
    (by decide) (by decide) (by decide) (by decide) (by decide)

/-- C6 (amended): on a timer without members, attaching a train (index below
`NUMBER_OF_PTRAINS`, as every allocated train is) and detaching it with `pStop`
brings `number_of_ptrains` back to 0, and the next `pStartTimer` on that timer
fails with `ERROR_TIMER_RUNNING`, the value `pStartTimer` returns on every
active timer too, there being no error code of its own for a timer without
members; the call leaves the state, registers included, as it was, so the
timer is not started. -/
theorem C6_attach_detach_start (idx : Nat) (pin : Int) (t : timers16bit_t) (s : State)
    (hidx : idx < NUMBER_OF_PTRAINS) (hempty : (s.timer_array t).number_of_ptrains = 0) :
    (((pAttach idx pin t s).2).timer_array t).number_of_ptrains = 1 ∧
    (pStop idx (pAttach idx pin t s).2).1 = PTRAIN_REMOVED ∧
    (((pStop idx (pAttach idx pin t s).2).2).timer_array t).number_of_ptrains = 0 ∧
    pStartTimer t (pStop idx (pAttach idx pin t s).2).2 =
      (ERROR_TIMER_RUNNING, (pStop idx (pAttach idx pin t s).2).2) ∧
    pIsTimerActive t (pStartTimer t (pStop idx (pAttach idx pin t s).2).2).2 =
      pIsTimerActive t s ∧
    (∀ (t1 : timers16bit_t) (s1 : State), pIsTimerActive t1 s1 = true →
      (pStartTimer t1 s1).1 = (pStartTimer t (pStop idx (pAttach idx pin t s).2).2).1) := by
  obtain ⟨_, _, a3, a4, a5, _⟩ := pAttach_timer idx pin t s hidx (by rw [hempty]; decide)
  rw [hempty] at a3 a4
  norm_num at a3 a4
  have hregs : ((pStop idx (pAttach idx pin t s).2).2).registers = s.registers := by
    simp [pStop, pRemoveFromTimer, pAttach, hidx, pAddToTimer, pReloadToTimer,
      pSetTimerPrescale, set_timer, set_ptrain]
    split_ifs <;> rfl
  generalize (pAttach idx pin t s).2 = s1 at *
  have hpos : 0 < (s1.timer_array (s1.ptrains idx).timer_number).number_of_ptrains := by
    rw [a5, a3]; decide
  obtain ⟨d1, _, d3⟩ := pStop_timer idx s1 hpos (by rw [a5, a3, a4]; decide)
  rw [a5, a3] at d3
  have hstart : pStartTimer t (pStop idx s1).2 = (ERROR_TIMER_RUNNING, (pStop idx s1).2) := by
    unfold pStartTimer
    simp [d3]
  refine ⟨a3, d1, d3, hstart, ?_, ?_⟩
  · rw [hstart]
    simp [pIsTimerActive, hregs]
  · intro t1 s2 hactive
    rw [hstart]
    unfold pStartTimer
    simp [hactive]

/-- C6, instance of the amended statement: train 0 attached to the empty
`PTIMER1` and detached again. -/
theorem C6_attach_detach_start_witness :
    (((pStop 0 (pAttach 0 13 PTIMER1 (pNewPTrain initial_state).2).2).2).timer_array
      PTIMER1).number_of_ptrains = 0 ∧
    (pStartTimer PTIMER1 (pStop 0 (pAttach 0 13 PTIMER1 (pNewPTrain initial_state).2).2).2).1
      = ERROR_TIMER_RUNNING ∧
    pIsTimerActive PTIMER1
      (pStartTimer PTIMER1 (pStop 0 (pAttach 0 13 PTIMER1 (pNewPTrain initial_state).2).2).2).2
      = false :=
  have h := C6_attach_detach_start 0 13 PTIMER1 (pNewPTrain initial_state).2 (by decide)
    (by decide)
  ⟨h.2.2.1, by rw [h.2.2.2.1], by rw [h.2.2.2.2.1]; decide⟩

/-- C6 as stated fails: after attach and detach of train 0 on the empty
`PTIMER1` the timer has no member and is not active, and `pStartTimer` returns
`ERROR_TIMER_RUNNING`, the error of a running timer and the very value it
returns on the running timer of the one train example: the failure is not
reported as an error of a timer without members. -/
theorem C6_counterexample :
    (((pStop 0 (pAttach 0 13 PTIMER1 (pNewPTrain initial_state).2).2).2).timer_array
      PTIMER1).number_of_ptrains = 0 ∧
    pIsTimerActive PTIMER1 (pStop 0 (pAttach 0 13 PTIMER1 (pNewPTrain initial_state).2).2).2
      = false ∧
    (pStartTimer PTIMER1 (pStop 0 (pAttach 0 13 PTIMER1 (pNewPTrain initial_state).2).2).2).1
      = ERROR_TIMER_RUNNING ∧
    pIsTimerActive PTIMER1 (started_run PTIMER1 (one_train 50 10 5) 0) = true ∧
    (pStartTimer PTIMER1 (pStop 0 (pAttach 0 13 PTIMER1 (pNewPTrain initial_state).2).2).2).1
      = (pStartTimer PTIMER1 (started_run PTIMER1 (one_train 50 10 5) 0)).1 := by
  decide

/-- C7: on a timer for which `pIsTimerActive` is true, every call of
`pStartTimer`, however many came before, returns `ERROR_TIMER_RUNNING` and
leaves the whole state as it was: `number_of_periods`, `pulsed_state`, the
member list and the registers of the timer included. -/
theorem C7_start_active (t : timers16bit_t) (s : State) (k : Nat)
    (hactive : pIsTimerActive t s = true) :
    pStartTimer_calls t k s = s ∧
    pStartTimer t (pStartTimer_calls t k s) = (ERROR_TIMER_RUNNING, s) := by
  have h1 : pStartTimer t s = (ERROR_TIMER_RUNNING, s) := by
    unfold pStartTimer
    simp [hactive]
  induction k with
  | zero => exact ⟨rfl, h1⟩
  | succ k ih =>
    have h2 : pStartTimer_calls t (k + 1) s = s := by
      show (pStartTimer t (pStartTimer_calls t k s)).2 = s
      rw [ih.2]
    exact ⟨h2, by rw [h2]; exact h1⟩

/-- C7, instance: the running timer of the one train example refuses a second
and a third start, unchanged. -/
theorem C7_start_active_witness :
    pIsTimerActive PTIMER1 (started_run PTIMER1 (one_train 50 10 5) 0) = true ∧
    pStartTimer_calls PTIMER1 2 (started_run PTIMER1 (one_train 50 10 5) 0) =
      started_run PTIMER1 (one_train 50 10 5) 0 ∧
    pStartTimer PTIMER1
      (pStartTimer_calls PTIMER1 2 (started_run PTIMER1 (one_train 50 10 5) 0)) =
      (ERROR_TIMER_RUNNING, started_run PTIMER1 (one_train 50 10 5) 0) :=
  ⟨by decide,
    C7_start_active PTIMER1 (started_run PTIMER1 (one_train 50 10 5) 0) 2 (by decide)⟩

/-- The train count after `k` allocations from a state without trains. -/
theorem pNewPTrain_calls_count (s : State) (h0 : s.ptrain_count = 0) (k : Nat) :
    (pNewPTrain_calls k s).ptrain_count = min k NUMBER_OF_PTRAINS := by
  induction k with
  | zero => simpa [pNewPTrain_calls] using h0
  | succ k ih =>
    show ((pNewPTrain (pNewPTrain_calls k s)).2).ptrain_count = _
    unfold pNewPTrain
    by_cases hk : k < NUMBER_OF_PTRAINS
    · have : (pNewPTrain_calls k s).ptrain_count = k := by rw [ih]; omega
      simp only [this, hk, if_true, set_ptrain]
      omega
    · have : (pNewPTrain_calls k s).ptrain_count = NUMBER_OF_PTRAINS := by rw [ih]; omega
      simp only [this, lt_irrefl, if_false]
      omega

/-- C8: from a state with `ptrain_count = 0`, call number `k` of `pNewPTrain`
(counted from 0), for `k < NUMBER_OF_PTRAINS`, returns `k`, sets the prescale
of train `k` to `DEFAULT_PTRAIN_PRESCALE` and makes the count `k + 1`; every
later call returns `ERROR_PTRAIN_IDX` and leaves the state as it was; the
count never decreases and never exceeds `NUMBER_OF_PTRAINS`. -/
theorem C8_allocate (s : State) (h0 : s.ptrain_count = 0) :
    (∀ k, k < NUMBER_OF_PTRAINS →
      (pNewPTrain (pNewPTrain_calls k s)).1 = k ∧
      ((pNewPTrain_calls (k + 1) s).ptrains k).prescale = DEFAULT_PTRAIN_PRESCALE ∧
      (pNewPTrain_calls (k + 1) s).ptrain_count = k + 1) ∧
    (∀ k, NUMBER_OF_PTRAINS ≤ k →
      pNewPTrain (pNewPTrain_calls k s) = (ERROR_PTRAIN_IDX, pNewPTrain_calls k s)) ∧
    (∀ k, (pNewPTrain_calls k s).ptrain_count ≤ (pNewPTrain_calls (k + 1) s).ptrain_count ∧
      (pNewPTrain_calls k s).ptrain_count ≤ NUMBER_OF_PTRAINS) := by
  have hc := pNewPTrain_calls_count s h0
  refine ⟨?_, ?_, ?_⟩
  · intro k hk
    have hk' : (pNewPTrain_calls k s).ptrain_count = k := by rw [hc]; omega
    refine ⟨?_, ?_, ?_⟩
    · unfold pNewPTrain; simp [hk', hk]
    · show (((pNewPTrain (pNewPTrain_calls k s)).2).ptrains k).prescale = _
      unfold pNewPTrain; simp [hk', hk, set_ptrain]
    · rw [hc]; omega
  · intro k hk
    have hk' : (pNewPTrain_calls k s).ptrain_count = NUMBER_OF_PTRAINS := by rw [hc]; omega
    unfold pNewPTrain; simp [hk']
  · intro k
    rw [hc, hc]; omega

/-- C8, instance: from the initial state the first call returns 0, the call
after 32 allocations returns `ERROR_PTRAIN_IDX`. -/
theorem C8_allocate_witness :
    initial_state.ptrain_count = 0 ∧
    (pNewPTrain (pNewPTrain_calls 0 initial_state)).1 = 0 ∧
    ((pNewPTrain_calls 1 initial_state).ptrains 0).prescale = 8 ∧
    (pNewPTrain (pNewPTrain_calls 32 initial_state)).1 = ERROR_PTRAIN_IDX :=
  have h := C8_allocate initial_state rfl
  ⟨rfl, (h.1 0 (by decide)).1, (h.1 0 (by decide)).2.1, by rw [h.2.1 32 (by decide)]⟩

/-- C9, as the code behaves: on a timer whose member list is full
(`number_of_ptrains = PTRAINS_PER_TIMER`) `pAttach` of a train index below
`NUMBER_OF_PTRAINS` does not fail: it returns the train index, not
`ERROR_PTRAIN_IDX`.  The store `ptrain_idxs[number_of_ptrains] = ptrain_idx` is
one past the last element of the array and lands in `number_of_ptrains`, which
the increment then makes `ptrain_idx + 1`: the twelve elements of the array are
untouched, the train is in none of them by this call, the element read at
index `PTRAINS_PER_TIMER` is the new count, the count changes unless
`ptrain_idx + 1 = PTRAINS_PER_TIMER` and exceeds `PTRAINS_PER_TIMER` for every
train index from `PTRAINS_PER_TIMER` on; `pAddToTimer` on a train bound to that
timer returns `ptrain_idx + 1`. -/
theorem C9_attach_full (idx : Nat) (pin : Int) (t : timers16bit_t) (s : State)
    (hidx : idx < NUMBER_OF_PTRAINS)
    (hfull : (s.timer_array t).number_of_ptrains = PTRAINS_PER_TIMER) :
    (pAttach idx pin t s).1 = idx ∧
    (pAttach idx pin t s).1 ≠ ERROR_PTRAIN_IDX ∧
    (((pAttach idx pin t s).2).timer_array t).number_of_ptrains = idx + 1 ∧
    (∀ j, j < PTRAINS_PER_TIMER →
      (((pAttach idx pin t s).2).timer_array t).ptrain_idxs j =
        (s.timer_array t).ptrain_idxs j) ∧
    ptrain_idxs_read (((pAttach idx pin t s).2).timer_array t) PTRAINS_PER_TIMER = idx + 1 ∧
    (idx + 1 ≠ PTRAINS_PER_TIMER →
      (((pAttach idx pin t s).2).timer_array t).number_of_ptrains ≠
        (s.timer_array t).number_of_ptrains) ∧
    (PTRAINS_PER_TIMER ≤ idx →
      ¬ (((pAttach idx pin t s).2).timer_array t).number_of_ptrains ≤ PTRAINS_PER_TIMER) ∧
    (((pAttach idx pin t s).2).ptrains idx).timer_index = idx + 1 ∧
    ((s.ptrains idx).timer_number = t →
      (pAddToTimer t idx s).1 = idx + 1 ∧
      (pAddToTimer t idx s).1 ≠ ERROR_PTRAIN_IDX) := by
  obtain ⟨a1, a2, a3, a4, _⟩ := pAttach_full_timer idx pin t s hidx hfull
  have hne : idx ≠ ERROR_PTRAIN_IDX := Nat.ne_of_lt (lt_trans hidx (by decide))
  have hmod : (idx + 1) % 256 = idx + 1 :=
    Nat.mod_eq_of_lt (by have : NUMBER_OF_PTRAINS = 32 := rfl; omega)
  refine ⟨a1, by rw [a1]; exact hne, a3, fun j _ => by rw [a2], ?_, ?_, ?_, a4, ?_⟩
  · simp [ptrain_idxs_read, a3]
  · intro h
    rw [a3, hfull]
    exact h
  · intro h
    rw [a3]
    omega
  · intro hb
    have : (pAddToTimer t idx s).1 = idx + 1 := by
      simp [pAddToTimer, pReloadToTimer, pSetTimerPrescale, set_timer, ptrain_idxs_write,
        hb, hfull, hmod]
    refine ⟨this, ?_⟩
    rw [this]
    have : NUMBER_OF_PTRAINS = 32 := rfl
    have : ERROR_PTRAIN_IDX = 255 := rfl
    omega

set_option maxRecDepth 100000 in
/-- C9, the failing input: trains 0 to 11 are attached to `PTIMER1`, which is
then full; attaching train 20 returns 20, the timer then has a member count of
21 and its twelve array elements are still the trains 0 to 11. -/
theorem C9_attach_full_witness :
    ((attached_trains 12).timer_array PTIMER1).number_of_ptrains = PTRAINS_PER_TIMER ∧
    (pAttach 20 20 PTIMER1 (attached_trains 12)).1 = 20 ∧
    (((pAttach 20 20 PTIMER1 (attached_trains 12)).2).timer_array PTIMER1).number_of_ptrains
      = 20 + 1 ∧
    ¬ (((pAttach 20 20 PTIMER1 (attached_trains 12)).2).timer_array PTIMER1).number_of_ptrains
      ≤ PTRAINS_PER_TIMER ∧
    (List.range 12).map
      (((pAttach 20 20 PTIMER1 (attached_trains 12)).2).timer_array PTIMER1).ptrain_idxs
      = [0, 1, 2, 3, 4, 5, 6, 7, 8, 9, 10, 11] :=
  have h := C9_attach_full 20 20 PTIMER1 (attached_trains 12) (by decide) (by decide)
  ⟨by decide, h.1, h.2.2.1, h.2.2.2.2.2.2.1 (by decide), by decide⟩

/-- The run with limit 0 in terms of the pin loop of the handler. -/
theorem zero_limit_run (t : timers16bit_t) (s0 : State)
    (hstart : (pStartTimer t s0).1 = 0)
    (hlimit : (s0.timer_array t).period_num_limit = 0) :
    compare_interrupt_enabled t (started_run t s0 0) = true ∧
    compare_interrupt_enabled t (started_run t s0 1) = true ∧
    pIsTimerActive t (started_run t s0 1) = pIsTimerActive t (started_run t s0 0) ∧
    (started_run t s0 1).pin_calls = s0.pin_calls ++ pin_writes s0 t HIGH ∧
    compare_interrupt_enabled t (started_run t s0 2) = false ∧
    pIsTimerActive t (started_run t s0 2) = false ∧
    ((started_run t s0 2).timer_array t).number_of_periods = 1 ∧
    (started_run t s0 2).pin_calls =
      s0.pin_calls ++ pin_writes s0 t HIGH ++ pin_writes s0 t LOW := by
  obtain ⟨q1, q2, q3, q4, q5, _⟩ := pStartTimer_started t s0 hstart
  have hlim1 : (((pStartTimer t s0).2).timer_array t).period_num_limit = 0 := by
    rw [q1.2.2.2.1, hlimit]
  have key :
      ((started_run t s0 1).registers t).TCCRnB = ((started_run t s0 0).registers t).TCCRnB ∧
      ((started_run t s0 1).registers t).TIMSKn = ((started_run t s0 0).registers t).TIMSKn ∧
      (started_run t s0 1).pin_calls = s0.pin_calls ++ pin_writes s0 t HIGH ∧
      ((started_run t s0 2).registers t).TCCRnB =
        ((started_run t s0 0).registers t).TCCRnB &&& 0xF8 ∧
      ((started_run t s0 2).registers t).TIMSKn =
        ((started_run t s0 0).registers t).TIMSKn &&& (0xFF - _BV OCIEnA) ∧
      ((started_run t s0 2).timer_array t).number_of_periods = 1 ∧
      (started_run t s0 2).pin_calls =
        s0.pin_calls ++ pin_writes s0 t HIGH ++ pin_writes s0 t LOW := by
    by_cases hp : (s0.timer_array t).period_counts = 0
    · rw [if_pos hp] at q2
      obtain ⟨a1, a2, _, _, a5, a6, a7⟩ := init_step t (started_run t s0 0) (Or.inl q2)
      simp only [← started_run_succ] at a1 a2 a5 a6 a7
      obtain ⟨_, r2, _, r4, r5, r6⟩ := running_step t (started_run t s0 1) a1
      simp only [← started_run_succ] at r2 r4 r5 r6
      have hl : ((started_run t s0 1).timer_array t).period_num_limit = 0 := by
        rw [(started_run_same_setup t s0 1).2.2.2.1, hlim1]
      have hq3 : ((started_run t s0 0).timer_array t).number_of_periods = 0 := q3
      rw [hl, if_pos (Nat.zero_le _)] at r4 r5 r6
      rw [a2, hq3] at r2
      rw [a5] at r4
      rw [a6] at r5
      rw [a7, pin_writes_congr (started_run_same_setup t s0 1),
        pin_writes_congr (started_run_same_setup t s0 0), pin_writes_congr q1,
        pin_writes_congr q1] at r6
      rw [pin_writes_congr (started_run_same_setup t s0 0), pin_writes_congr q1] at a7
      exact ⟨a5, a6, by rw [a7]; exact congrArg (fun l => l ++ _) q4, r4, r5, r2,
        by rw [r6]; exact congrArg (fun l => l ++ _ ++ _) q4⟩
    · rw [if_neg hp] at q2
      have hb : between_periods t (pStartTimer t s0).2 (started_run t s0 0) 0 :=
        ⟨q2, q3, rfl, rfl, by simp [started_run, interrupts]⟩
      obtain ⟨_, _, _, _, p5, p6, p7, _, p9, p10, p11, p12⟩ :=
        variable_duty_period t (pStartTimer t s0).2 (started_run t s0 0) 0
          (started_run_same_setup t s0 0) hb (by decide)
      simp only [← started_run_succ] at p5 p6 p7 p9 p10 p11 p12
      rw [hlim1, if_pos (Nat.zero_le _)] at p10 p11
      rw [pin_writes_congr q1] at p7 p12
      have hq4 : (started_run t s0 0).pin_calls = s0.pin_calls := q4
      rw [hq4] at p7
      rw [p7] at p12
      exact ⟨p5, p6, p7, p10, p11, p9, p12⟩
  obtain ⟨k1, k2, k3, k4, k5, k6, k7⟩ := key
  have h0 : compare_interrupt_enabled t (started_run t s0 0) = true := q5
  refine ⟨h0, ?_, ?_, k3, ?_, ?_, k6, k7⟩
  · unfold compare_interrupt_enabled at h0 ⊢
    rw [k2]; exact h0
  · unfold pIsTimerActive
    rw [k1]
  · unfold compare_interrupt_enabled
    rw [k5]; simp [and_253_and_two]
  · unfold pIsTimerActive
    rw [k4]; simp [and_248_and_seven]

/-- C10 (amended): on a timer whose members fit the array, started with
aggregate `period_num_limit = 0`, in variable duty and in continuous mode
alike, the stop condition `number_of_periods >= period_num_limit` holds the
first time it is evaluated: the first interrupt makes one `digitalWrite` HIGH
on the pin of every member and leaves the timer running, the second interrupt
makes one `digitalWrite` LOW on the pin of every member and stops the timer
(compare interrupt disabled, `pIsTimerActive` false) with one period
counted. -/
theorem C10_zero_limit_stops (t : timers16bit_t) (s0 : State)
    (hstart : (pStartTimer t s0).1 = 0)
    (hlimit : (s0.timer_array t).period_num_limit = 0)
    (hfit : (s0.timer_array t).number_of_ptrains ≤ PTRAINS_PER_TIMER) :
    compare_interrupt_enabled t (started_run t s0 0) = true ∧
    compare_interrupt_enabled t (started_run t s0 1) = true ∧
    pIsTimerActive t (started_run t s0 1) = pIsTimerActive t (started_run t s0 0) ∧
    (started_run t s0 1).pin_calls =
      s0.pin_calls ++
        (List.range (s0.timer_array t).number_of_ptrains).map
          (fun i => digitalWrite (s0.ptrains ((s0.timer_array t).ptrain_idxs i)).pin HIGH) ∧
    compare_interrupt_enabled t (started_run t s0 2) = false ∧
    pIsTimerActive t (started_run t s0 2) = false ∧
    ((started_run t s0 2).timer_array t).number_of_periods = 1 ∧
    (started_run t s0 2).pin_calls =
      s0.pin_calls ++
        (List.range (s0.timer_array t).number_of_ptrains).map
          (fun i => digitalWrite (s0.ptrains ((s0.timer_array t).ptrain_idxs i)).pin HIGH) ++
        (List.range (s0.timer_array t).number_of_ptrains).map
          (fun i => digitalWrite (s0.ptrains ((s0.timer_array t).ptrain_idxs i)).pin LOW) := by
  have hH := pin_writes_inside s0 t HIGH hfit
  have hL := pin_writes_inside s0 t LOW hfit
  have h := zero_limit_run t s0 hstart hlimit
  rw [hH, hL] at h
  exact h

/-- C10, instance of the amended statement: the one train example with limit
0 is stopped by the second interrupt, after one `digitalWrite(13, HIGH)` and
one `digitalWrite(13, LOW)`. -/
theorem C10_zero_limit_stops_witness :
    (pStartTimer PTIMER1 (one_train 50 10 0)).1 = 0 ∧
    ((one_train 50 10 0).timer_array PTIMER1).period_num_limit = 0 ∧
    pIsTimerActive PTIMER1 (started_run PTIMER1 (one_train 50 10 0) 2) = false ∧
    ((started_run PTIMER1 (one_train 50 10 0) 2).timer_array PTIMER1).number_of_periods = 1 ∧
    (started_run PTIMER1 (one_train 50 10 0) 2).pin_calls =
      [pinMode_OUTPUT 13, digitalWrite 13 HIGH, digitalWrite 13 LOW] :=
  have h := C10_zero_limit_stops PTIMER1 (one_train 50 10 0) (by decide) (by decide)
    (by decide)
  ⟨by decide, by decide, h.2.2.2.2.2.1, h.2.2.2.2.2.2.1, h.2.2.2.2.2.2.2.trans (by decide)⟩

/-- C10 as stated fails: with `period_num_limit = 0` the timer does not keep
running.  In variable duty mode (period 100 ticks) and in continuous mode
(period 0) the started timer is active after the first interrupt, and the
second interrupt, not an explicit `pStopTimer`, leaves it inactive with the
compare interrupt disabled. -/
theorem C10_counterexample :
    ((one_train 50 10 0).timer_array PTIMER1).period_num_limit = 0 ∧
    ((one_train 50 10 0).timer_array PTIMER1).period_counts = 100 ∧
    (pStartTimer PTIMER1 (one_train 50 10 0)).1 = 0 ∧
    pIsTimerActive PTIMER1 (started_run PTIMER1 (one_train 50 10 0) 1) = true ∧
    pIsTimerActive PTIMER1 (started_run PTIMER1 (one_train 50 10 0) 2) = false ∧
    compare_interrupt_enabled PTIMER1 (started_run PTIMER1 (one_train 50 10 0) 2) = false ∧
    ((one_train 0 10 0).timer_array PTIMER1).period_num_limit = 0 ∧
    ((one_train 0 10 0).timer_array PTIMER1).period_counts = 0 ∧
    (pStartTimer PTIMER1 (one_train 0 10 0)).1 = 0 ∧
    pIsTimerActive PTIMER1 (started_run PTIMER1 (one_train 0 10 0) 1) = true ∧
    pIsTimerActive PTIMER1 (started_run PTIMER1 (one_train 0 10 0) 2) = false ∧
    compare_interrupt_enabled PTIMER1 (started_run PTIMER1 (one_train 0 10 0) 2) = false := by
  decide

/-- C11: `pReloadToTimer` on a train makes the `pulse_counts`, `period_counts`
and `period_num_limit` of the timer the train is bound to equal to those of the
train, whatever the timer held before; it leaves the member list, the member
count, `number_of_periods` and `pulsed_state` of that timer, every other timer,
the trains, the registers and the pin calls as they were, and returns the
member count of the timer.  When two trains are bound to one timer, the values
of the train reloaded last are the ones the timer holds. -/
theorem C11_reload (idx : Nat) (s : State) :
    (pReloadToTimer idx s).1 = (s.timer_array (s.ptrains idx).timer_number).number_of_ptrains ∧
    (((pReloadToTimer idx s).2).timer_array (s.ptrains idx).timer_number).pulse_counts =
      (s.ptrains idx).pulse_counts ∧
    (((pReloadToTimer idx s).2).timer_array (s.ptrains idx).timer_number).period_counts =
      (s.ptrains idx).period_counts ∧
    (((pReloadToTimer idx s).2).timer_array (s.ptrains idx).timer_number).period_num_limit =
      (s.ptrains idx).period_num_limit ∧
    (((pReloadToTimer idx s).2).timer_array (s.ptrains idx).timer_number).ptrain_idxs =
      (s.timer_array (s.ptrains idx).timer_number).ptrain_idxs ∧
    (((pReloadToTimer idx s).2).timer_array (s.ptrains idx).timer_number).number_of_ptrains =
      (s.timer_array (s.ptrains idx).timer_number).number_of_ptrains ∧
    (((pReloadToTimer idx s).2).timer_array (s.ptrains idx).timer_number).number_of_periods =
      (s.timer_array (s.ptrains idx).timer_number).number_of_periods ∧
    (((pReloadToTimer idx s).2).timer_array (s.ptrains idx).timer_number).pulsed_state =
      (s.timer_array (s.ptrains idx).timer_number).pulsed_state ∧
    (∀ t, t ≠ (s.ptrains idx).timer_number →
      ((pReloadToTimer idx s).2).timer_array t = s.timer_array t) ∧
    ((pReloadToTimer idx s).2).ptrains = s.ptrains ∧
    ((pReloadToTimer idx s).2).ptrain_count = s.ptrain_count ∧
    ((pReloadToTimer idx s).2).registers = s.registers ∧
    ((pReloadToTimer idx s).2).pin_calls = s.pin_calls ∧
    (∀ other, (s.ptrains other).timer_number = (s.ptrains idx).timer_number →
      (((pReloadToTimer idx (pReloadToTimer other s).2).2).timer_array
        (s.ptrains idx).timer_number).pulse_counts = (s.ptrains idx).pulse_counts ∧
      (((pReloadToTimer idx (pReloadToTimer other s).2).2).timer_array
        (s.ptrains idx).timer_number).period_counts = (s.ptrains idx).period_counts ∧
      (((pReloadToTimer idx (pReloadToTimer other s).2).2).timer_array
        (s.ptrains idx).timer_number).period_num_limit = (s.ptrains idx).period_num_limit) := by
  refine ⟨?_, ?_, ?_, ?_, ?_, ?_, ?_, ?_, ?_, ?_, ?_, ?_, ?_, ?_⟩
  all_goals simp [pReloadToTimer, pSetTimerPrescale, set_timer]
  intro t ht
  simp [Function.update_noteq ht]

/-- C11, instance: in the two train example train 1 loaded `PTIMER1` last
(200, 60, 7); reloading train 0 makes the timer hold 100, 20, 5 and returns the
member count 2. -/
theorem C11_reload_witness :
    (two_trains.ptrains 0).timer_number = PTIMER1 ∧
    (two_trains.timer_array PTIMER1).period_counts = 200 ∧
    (two_trains.ptrains 0).period_counts = 100 ∧
    (two_trains.timer_array PTIMER1).number_of_ptrains = 2 ∧
    (pReloadToTimer 0 two_trains).1 =
      (two_trains.timer_array (two_trains.ptrains 0).timer_number).number_of_ptrains ∧
    (((pReloadToTimer 0 two_trains).2).timer_array
      (two_trains.ptrains 0).timer_number).period_counts = (two_trains.ptrains 0).period_counts ∧
    ((pReloadToTimer 0 two_trains).2).timer_array PTIMER3 = two_trains.timer_array PTIMER3 :=
  have h := C11_reload 0 two_trains
  ⟨by decide, by decide, by decide, by decide, h.1, h.2.2.1,
    h.2.2.2.2.2.2.2.2.1 PTIMER3 (by decide)⟩

/-- C12, as the code behaves: after `pReloadToTimer` the `bit_prescale` of the
bound timer is `0x01`, `0x02`, `0x03` for a train prescale of 1, 8, 64, and it
is `0x01` again, not `0x04` and `0x05`, for a train prescale of 256 and 1024:
the `uint8_t` parameter of `pSetTimerPrescale` receives 0 for both. -/
theorem C12_reload_prescale (idx : Nat) (s : State) :
    ((s.ptrains idx).prescale = 1 →
      (((pReloadToTimer idx s).2).timer_array (s.ptrains idx).timer_number).bit_prescale
        = 0x01) ∧
    ((s.ptrains idx).prescale = 8 →
      (((pReloadToTimer idx s).2).timer_array (s.ptrains idx).timer_number).bit_prescale
        = 0x02) ∧
    ((s.ptrains idx).prescale = 64 →
      (((pReloadToTimer idx s).2).timer_array (s.ptrains idx).timer_number).bit_prescale
        = 0x03) ∧
    ((s.ptrains idx).prescale = 256 →
      (((pReloadToTimer idx s).2).timer_array (s.ptrains idx).timer_number).bit_prescale
        = 0x01) ∧
    ((s.ptrains idx).prescale = 1024 →
      (((pReloadToTimer idx s).2).timer_array (s.ptrains idx).timer_number).bit_prescale
        = 0x01) := by
  refine ⟨?_, ?_, ?_, ?_, ?_⟩ <;> intro h <;>
    simp [pReloadToTimer, pSetTimerPrescale, set_timer, h]

/-- C12, the failing input: train 0 configured with prescale 1024 (its counts
are computed with divisor 1024) and attached to `PTIMER1`; the reload leaves
`bit_prescale = 0x01`, the code of divisor 1, not `0x05`. -/
theorem C12_reload_prescale_witness :
    ((one_train_prescaled 1024).ptrains 0).prescale = 1024 ∧
    ((one_train_prescaled 1024).ptrains 0).timer_number = PTIMER1 ∧
    ((one_train_prescaled 1024).ptrains 0).period_counts = 1000 * 16 / 1024 ∧
    ((one_train_prescaled 1024).timer_array PTIMER1).bit_prescale = 0x01 ∧
    (((pReloadToTimer 0 (one_train_prescaled 1024)).2).timer_array
      ((one_train_prescaled 1024).ptrains 0).timer_number).bit_prescale = 0x01 ∧
    (((pReloadToTimer 0 (one_train_prescaled 1024)).2).timer_array
      ((one_train_prescaled 1024).ptrains 0).timer_number).bit_prescale ≠ 0x05 :=
  have h := (C12_reload_prescale 0 (one_train_prescaled 1024)).2.2.2.2 (by decide)
  ⟨by decide, by decide, by decide, by decide, h, by rw [h]; decide⟩

/-- C13, as the code behaves: after `pAttach` of a train index below
`NUMBER_OF_PTRAINS` to a timer with a free slot the train is stored at the
previously first free slot and the earlier members are unchanged, but the
`timer_index` recorded on the train is the new member count, one more than
that slot: `timer_index = number_of_ptrains`, not below it.  The element
`ptrain_idxs[timer_index]` is therefore not the slot of the train: while it is
inside the array it is the old content of the next slot, which the attach did
not write, and when the train took the last slot it is the element one past
the array, which is the member count itself. -/
theorem C13_attach_slot (idx : Nat) (pin : Int) (t : timers16bit_t) (s : State)
    (hidx : idx < NUMBER_OF_PTRAINS)
    (hfree : (s.timer_array t).number_of_ptrains < PTRAINS_PER_TIMER) :
    (((pAttach idx pin t s).2).timer_array t).ptrain_idxs (s.timer_array t).number_of_ptrains
      = idx ∧
    (∀ j, j < (s.timer_array t).number_of_ptrains →
      (((pAttach idx pin t s).2).timer_array t).ptrain_idxs j =
        (s.timer_array t).ptrain_idxs j) ∧
    (((pAttach idx pin t s).2).timer_array t).number_of_ptrains =
      (s.timer_array t).number_of_ptrains + 1 ∧
    (((pAttach idx pin t s).2).ptrains idx).timer_index =
      (s.timer_array t).number_of_ptrains + 1 ∧
    (((pAttach idx pin t s).2).ptrains idx).timer_index =
      (((pAttach idx pin t s).2).timer_array t).number_of_ptrains ∧
    ¬ (((pAttach idx pin t s).2).ptrains idx).timer_index <
      (((pAttach idx pin t s).2).timer_array t).number_of_ptrains ∧
    ((s.timer_array t).number_of_ptrains + 1 < PTRAINS_PER_TIMER →
      ptrain_idxs_read (((pAttach idx pin t s).2).timer_array t)
          (((pAttach idx pin t s).2).ptrains idx).timer_index =
        (s.timer_array t).ptrain_idxs ((s.timer_array t).number_of_ptrains + 1)) ∧
    ((s.timer_array t).number_of_ptrains + 1 = PTRAINS_PER_TIMER →
      ptrain_idxs_read (((pAttach idx pin t s).2).timer_array t)
          (((pAttach idx pin t s).2).ptrains idx).timer_index =
        (((pAttach idx pin t s).2).timer_array t).number_of_ptrains) := by
  obtain ⟨_, a2, a3, a4, _, _⟩ := pAttach_timer idx pin t s hidx hfree
  refine ⟨by rw [a2]; simp, ?_, a3, a4, by rw [a3, a4], by rw [a3, a4]; exact lt_irrefl _,
    ?_, ?_⟩
  · intro j hj
    rw [a2, Function.update_noteq (Nat.ne_of_lt hj)]
  · intro h
    rw [a4, ptrain_idxs_read_inside _ _ h, a2, Function.update_noteq (Nat.succ_ne_self _)]
  · intro h
    rw [a4, h]
    simp [ptrain_idxs_read]

/-- C13, the failing input: train 1 attached to the empty `PTIMER1`; it is the
member at index 0, its `timer_index` is 1, equal to the member count, and
`ptrain_idxs[1]` is 0, not 1. -/
theorem C13_attach_slot_witness :
    (((pAttach 1 11 PTIMER1 (pNewPTrain_calls 2 initial_state)).2).timer_array
      PTIMER1).ptrain_idxs 0 = 1 ∧
    (((pAttach 1 11 PTIMER1 (pNewPTrain_calls 2 initial_state)).2).ptrains 1).timer_index
      = 1 ∧
    (((pAttach 1 11 PTIMER1 (pNewPTrain_calls 2 initial_state)).2).timer_array
      PTIMER1).number_of_ptrains = 1 ∧
    ptrain_idxs_read
      (((pAttach 1 11 PTIMER1 (pNewPTrain_calls 2 initial_state)).2).timer_array PTIMER1)
      (((pAttach 1 11 PTIMER1 (pNewPTrain_calls 2 initial_state)).2).ptrains 1).timer_index
      = 0 :=
  have h := C13_attach_slot 1 11 PTIMER1 (pNewPTrain_calls 2 initial_state) (by decide)
    (by decide)
  ⟨h.1, h.2.2.2.1, h.2.2.1, h.2.2.2.2.2.2.1 (by decide)⟩

/-- C14: for a train index below `NUMBER_OF_PTRAINS` and a valid pair
(`pulse < period` or `period = 0`), a requested prescale that is none of 1, 8,
64, 256, 1024 does not make `_pSetPulseUS` fail: it returns 0, stores
`DEFAULT_PTRAIN_PRESCALE` on the train and stores both counts as
`US_TO_COUNTS` with divisor 8 (kept to the 16 bits of the field, the exact
floor when it fits); a requested prescale in the set is stored as requested. -/
theorem C14_prescale_fallback (F idx period pulse limit prescale : Nat) (s : State)
    (hidx : idx < NUMBER_OF_PTRAINS) (hvalid : pulse < period ∨ period = 0) :
    (_pSetPulseUS F idx period pulse limit prescale s).1 = 0 ∧
    ((prescale ≠ 1 ∧ prescale ≠ 8 ∧ prescale ≠ 64 ∧ prescale ≠ 256 ∧ prescale ≠ 1024) →
      (((_pSetPulseUS F idx period pulse limit prescale s).2).ptrains idx).prescale =
        DEFAULT_PTRAIN_PRESCALE ∧
      pGetPeriodCounts idx (_pSetPulseUS F idx period pulse limit prescale s).2 =
        US_TO_COUNTS F period 8 % 2 ^ 16 ∧
      pGetPulseCounts idx (_pSetPulseUS F idx period pulse limit prescale s).2 =
        US_TO_COUNTS F pulse 8 % 2 ^ 16 ∧
      (period * F / 8 < 2 ^ 16 →
        pGetPeriodCounts idx (_pSetPulseUS F idx period pulse limit prescale s).2 =
          period * F / 8) ∧
      (pulse * F / 8 < 2 ^ 16 →
        pGetPulseCounts idx (_pSetPulseUS F idx period pulse limit prescale s).2 =
          pulse * F / 8)) ∧
    ((prescale = 1 ∨ prescale = 8 ∨ prescale = 64 ∨ prescale = 256 ∨ prescale = 1024) →
      (((_pSetPulseUS F idx period pulse limit prescale s).2).ptrains idx).prescale =
        prescale) := by
  rw [_pSetPulseUS_accepts F idx period pulse limit prescale s hidx hvalid]
  refine ⟨rfl, ?_, ?_⟩
  · rintro ⟨h1, h8, h64, h256, h1024⟩
    have hsp : stored_prescale prescale = 8 := by
      unfold stored_prescale
      rw [if_neg (by omega)]
    simp only [set_ptrain, Function.update_same, pGetPeriodCounts, pGetPulseCounts, hsp]
    exact ⟨trivial, trivial, trivial, fun h => US_TO_COUNTS_fits F period 8 (by decide) (by decide) h,
      fun h => US_TO_COUNTS_fits F pulse 8 (by decide) (by decide) h⟩
  · intro h
    have hsp : stored_prescale prescale = prescale := by
      unfold stored_prescale
      rw [if_pos (by omega)]
    simp [set_ptrain, hsp]

/-- C14, instance: a requested prescale of 3 on train 0 with period 100 us and
pulse 20 us at 16 cycles per microsecond is accepted, stored as 8, and the
counts are 200 and 40. -/
theorem C14_prescale_fallback_witness :
    (_pSetPulseUS 16 0 100 20 5 3 (pNewPTrain initial_state).2).1 = 0 ∧
    (((_pSetPulseUS 16 0 100 20 5 3 (pNewPTrain initial_state).2).2).ptrains 0).prescale
      = DEFAULT_PTRAIN_PRESCALE ∧
    pGetPeriodCounts 0 (_pSetPulseUS 16 0 100 20 5 3 (pNewPTrain initial_state).2).2
      = 100 * 16 / 8 ∧
    pGetPulseCounts 0 (_pSetPulseUS 16 0 100 20 5 3 (pNewPTrain initial_state).2).2
      = 20 * 16 / 8 :=
  have h := C14_prescale_fallback 16 0 100 20 5 3 (pNewPTrain initial_state).2 (by decide)
    (by decide)
  have h2 := h.2.1 (by decide)
  ⟨h.1, h2.1, h2.2.2.2.1 (by decide), h2.2.2.2.2 (by decide)⟩

/-- A `_pSetPulseUS` that returns 0 had a train index below
`NUMBER_OF_PTRAINS` and a valid pair. -/
theorem _pSetPulseUS_ok (F idx period pulse limit prescale : Nat) (s : State)
    (h : (_pSetPulseUS F idx period pulse limit prescale s).1 = 0) :
    idx < NUMBER_OF_PTRAINS ∧ (pulse < period ∨ period = 0) := by
  unfold _pSetPulseUS at h
  by_cases h1 : idx < NUMBER_OF_PTRAINS
  · by_cases h2 : pulse < period ∨ period = 0
    · exact ⟨h1, h2⟩
    · simp [h1, h2] at h
  · simp [h1] at h

/-- C15 (amended): after a `_pSetPulseUS` that returns 0, when
`floor(period * CLOCKCYCLESPERMICROSECOND / prescale)` fits the 16 bit count
field, the stored counts satisfy `pulse_counts <= period_counts` or
`period_counts = 0`. -/
theorem C15_counts_ordered (F idx period pulse limit prescale : Nat) (s : State)
    (hok : (_pSetPulseUS F idx period pulse limit prescale s).1 = 0)
    (hfit : period * F /
      ((_pSetPulseUS F idx period pulse limit prescale s).2.ptrains idx).prescale < 2 ^ 16) :
    ((_pSetPulseUS F idx period pulse limit prescale s).2.ptrains idx).pulse_counts ≤
      ((_pSetPulseUS F idx period pulse limit prescale s).2.ptrains idx).period_counts ∨
    ((_pSetPulseUS F idx period pulse limit prescale s).2.ptrains idx).period_counts = 0 := by
  obtain ⟨hidx, hvalid⟩ := _pSetPulseUS_ok F idx period pulse limit prescale s hok
  rw [_pSetPulseUS_accepts F idx period pulse limit prescale s hidx hvalid] at hfit ⊢
  simp only [set_ptrain, Function.update_same] at hfit ⊢
  have hq := stored_prescale_cases prescale
  have hq0 : 0 < stored_prescale prescale := by omega
  have hq1 : stored_prescale prescale ≤ 1024 := by omega
  rcases hvalid with hlt | hzero
  · left
    have hle : pulse * F / stored_prescale prescale ≤ period * F / stored_prescale prescale :=
      Nat.div_le_div_right (Nat.mul_le_mul_right F (le_of_lt hlt))
    rw [US_TO_COUNTS_fits F period _ hq0 hq1 hfit,
      US_TO_COUNTS_fits F pulse _ hq0 hq1 (lt_of_le_of_lt hle hfit)]
    exact hle
  · right
    subst hzero
    simp [US_TO_COUNTS]

/-- C15, instance of the amended statement: 100 us and 70 us at prescale 1024
are both stored as 1 count. -/
theorem C15_counts_ordered_witness :
    ((_pSetPulseUS 16 0 100 70 5 1024 (pNewPTrain initial_state).2).2.ptrains 0).pulse_counts ≤
      ((_pSetPulseUS 16 0 100 70 5 1024 (pNewPTrain initial_state).2).2.ptrains 0).period_counts ∨
    ((_pSetPulseUS 16 0 100 70 5 1024 (pNewPTrain initial_state).2).2.ptrains 0).period_counts
      = 0 :=
  C15_counts_ordered 16 0 100 70 5 1024 (pNewPTrain initial_state).2 (by decide) (by decide)

/-- C15 as stated fails, in two ways.  Rounding: at 16 cycles per microsecond
and prescale 1024 a period of 100 us with a pulse of 70 us is accepted and both
counts are 1, so `pulse_counts < period_counts` is false and `period_counts`
is not 0.  Truncation: at prescale 8 a period of 100000 us with a pulse of
30000 us is accepted, and the stored counts are 3392 for the period and 60000
for the pulse. -/
theorem C15_counterexample :
    (_pSetPulseUS 16 0 100 70 5 1024 (pNewPTrain initial_state).2).1 = 0 ∧
    ((_pSetPulseUS 16 0 100 70 5 1024 (pNewPTrain initial_state).2).2.ptrains 0).pulse_counts
      = 1 ∧
    ((_pSetPulseUS 16 0 100 70 5 1024 (pNewPTrain initial_state).2).2.ptrains 0).period_counts
      = 1 ∧
    (_pSetPulseUS 16 0 100000 30000 5 8 (pNewPTrain initial_state).2).1 = 0 ∧
    ((_pSetPulseUS 16 0 100000 30000 5 8 (pNewPTrain initial_state).2).2.ptrains 0).pulse_counts
      = 60000 ∧
    ((_pSetPulseUS 16 0 100000 30000 5 8 (pNewPTrain initial_state).2).2.ptrains 0).period_counts
      = 3392 ∧
    ¬ (((_pSetPulseUS 16 0 100 70 5 1024 (pNewPTrain initial_state).2).2.ptrains 0).pulse_counts
        < ((_pSetPulseUS 16 0 100 70 5 1024 (pNewPTrain initial_state).2).2.ptrains
          0).period_counts ∨
      ((_pSetPulseUS 16 0 100 70 5 1024 (pNewPTrain initial_state).2).2.ptrains 0).period_counts
        = 0) := by
  decide

/-- C16: `pStopTimer` returns 0, makes `pIsTimerActive` false and disables the
compare interrupt of the timer; it leaves `timer_array` (member list, member
count, aggregate counts, `number_of_periods`, `pulsed_state` of every timer),
the trains, the pin calls and the registers of the other timers as they were;
and when the timer has a member, the next `pStartTimer` on it returns 0. -/
theorem C16_stop_restart (t : timers16bit_t) (s : State) :
    (pStopTimer t s).1 = 0 ∧
    pIsTimerActive t (pStopTimer t s).2 = false ∧
    compare_interrupt_enabled t (pStopTimer t s).2 = false ∧
    ((pStopTimer t s).2).timer_array = s.timer_array ∧
    ((pStopTimer t s).2).ptrains = s.ptrains ∧
    ((pStopTimer t s).2).ptrain_count = s.ptrain_count ∧
    ((pStopTimer t s).2).pin_calls = s.pin_calls ∧
    (∀ t', t' ≠ t → ((pStopTimer t s).2).registers t' = s.registers t') ∧
    (0 < (s.timer_array t).number_of_ptrains → (pStartTimer t (pStopTimer t s).2).1 = 0) := by
  obtain ⟨h1, h2⟩ := pStopTimer_inactive t s
  refine ⟨rfl, h1, h2, rfl, rfl, rfl, rfl, ?_, ?_⟩
  · intro t' ht
    simp [pStopTimer, set_registers, Function.update_noteq ht]
  · intro hpos
    have htc : ((pStopTimer t s).2).timer_array = s.timer_array := rfl
    unfold pStartTimer
    simp [h1, htc, hpos]

/-- C16, instance: the running timer of the one train example is stopped and
started again. -/
theorem C16_stop_restart_witness :
    pIsTimerActive PTIMER1 (started_run PTIMER1 (one_train 50 10 5) 3) = true ∧
    pIsTimerActive PTIMER1
      (pStopTimer PTIMER1 (started_run PTIMER1 (one_train 50 10 5) 3)).2 = false ∧
    (pStartTimer PTIMER1
      (pStopTimer PTIMER1 (started_run PTIMER1 (one_train 50 10 5) 3)).2).1 = 0 :=
  have h := C16_stop_restart PTIMER1 (started_run PTIMER1 (one_train 50 10 5) 3)
  ⟨by decide, h.2.1, h.2.2.2.2.2.2.2.2 (by decide)⟩

/-- C17: on a timer that is not active and has a member, `pStartTimer`
returns 0, sets `number_of_periods` to 0, sets `pulsed_state` to `PDC_INIT`
when the aggregate `period_counts` is 0 and to `PPULSE_LO` otherwise, whatever
the two fields held before, and leaves the member list, the member count and
the aggregate `pulse_counts`, `period_counts` and `period_num_limit` as they
were. -/
theorem C17_start (t : timers16bit_t) (s : State)
    (hinactive : pIsTimerActive t s = false)
    (hmember : 0 < (s.timer_array t).number_of_ptrains) :
    (pStartTimer t s).1 = 0 ∧
    (((pStartTimer t s).2).timer_array t).number_of_periods = 0 ∧
    (((pStartTimer t s).2).timer_array t).pulsed_state =
      (if (s.timer_array t).period_counts = 0 then PDC_INIT else PPULSE_LO) ∧
    (((pStartTimer t s).2).timer_array t).ptrain_idxs = (s.timer_array t).ptrain_idxs ∧
    (((pStartTimer t s).2).timer_array t).number_of_ptrains =
      (s.timer_array t).number_of_ptrains ∧
    (((pStartTimer t s).2).timer_array t).pulse_counts = (s.timer_array t).pulse_counts ∧
    (((pStartTimer t s).2).timer_array t).period_counts = (s.timer_array t).period_counts ∧
    (((pStartTimer t s).2).timer_array t).period_num_limit =
      (s.timer_array t).period_num_limit := by
  have hret : (pStartTimer t s).1 = 0 := by
    unfold pStartTimer
    simp [hinactive, hmember]
  obtain ⟨q1, q2, q3, _⟩ := pStartTimer_started t s hret
  obtain ⟨_, s2, s3, s4, s5, s6⟩ := q1
  exact ⟨hret, q3, q2, s2, s3, s5, s6, s4⟩

/-- C17, instance: the one train example after a complete run of 5 periods
(`number_of_periods = 5`) is started again: the count is 0 and the state
`PPULSE_LO`. -/
theorem C17_start_witness :
    ((started_run PTIMER1 (one_train 50 10 5) 10).timer_array PTIMER1).number_of_periods = 5 ∧
    (pStartTimer PTIMER1 (started_run PTIMER1 (one_train 50 10 5) 10)).1 = 0 ∧
    (((pStartTimer PTIMER1 (started_run PTIMER1 (one_train 50 10 5) 10)).2).timer_array
      PTIMER1).number_of_periods = 0 ∧
    (((pStartTimer PTIMER1 (started_run PTIMER1 (one_train 50 10 5) 10)).2).timer_array
      PTIMER1).pulsed_state =
      (if ((started_run PTIMER1 (one_train 50 10 5) 10).timer_array PTIMER1).period_counts = 0
       then PDC_INIT else PPULSE_LO) :=
  have h := C17_start PTIMER1 (started_run PTIMER1 (one_train 50 10 5) 10) (by decide)
    (by decide)
  ⟨by decide, h.1, h.2.1, h.2.2.1⟩

/-- C19 (amended): for every train identifier that is not below
`NUMBER_OF_PTRAINS`, `_pSetPulseUS` and `pAttach` return `ERROR_PTRAIN_IDX`
and leave the whole state as it was.  Every identifier below
`NUMBER_OF_PTRAINS` is accepted, also one that was never allocated
(`pIsValidPTrain` false): `_pSetPulseUS` does not return `ERROR_PTRAIN_IDX`
and, for a valid pair, returns 0 and stores the limit and the prescale on that
train; `pAttach` returns the identifier and stores the pin and the timer on
that train. -/
theorem C19_invalid_index (F idx period pulse limit prescale : Nat) (pin : Int)
    (t : timers16bit_t) (s : State) :
    (NUMBER_OF_PTRAINS ≤ idx →
      _pSetPulseUS F idx period pulse limit prescale s = (ERROR_PTRAIN_IDX, s) ∧
      pAttach idx pin t s = (ERROR_PTRAIN_IDX, s)) ∧
    (pIsValidPTrain idx s = false → idx < NUMBER_OF_PTRAINS →
      (_pSetPulseUS F idx period pulse limit prescale s).1 ≠ ERROR_PTRAIN_IDX ∧
      ((pulse < period ∨ period = 0) →
        (_pSetPulseUS F idx period pulse limit prescale s).1 = 0 ∧
        (((_pSetPulseUS F idx period pulse limit prescale s).2).ptrains idx).period_num_limit
          = limit ∧
        (((_pSetPulseUS F idx period pulse limit prescale s).2).ptrains idx).prescale
          = stored_prescale prescale) ∧
      (pAttach idx pin t s).1 = idx ∧
      (pAttach idx pin t s).1 ≠ ERROR_PTRAIN_IDX ∧
      (((pAttach idx pin t s).2).ptrains idx).pin = (pin % 256).toNat ∧
      (((pAttach idx pin t s).2).ptrains idx).timer_number = t) := by
  constructor
  · intro hidx
    have h : ¬ idx < NUMBER_OF_PTRAINS := Nat.not_lt.mpr hidx
    unfold _pSetPulseUS pAttach
    simp [h]
  · intro _ hidx
    have hne : idx ≠ ERROR_PTRAIN_IDX := Nat.ne_of_lt (lt_trans hidx (by decide))
    refine ⟨?_, ?_, ?_, ?_, ?_, ?_⟩
    · by_cases hv : pulse < period ∨ period = 0
      · rw [_pSetPulseUS_accepts F idx period pulse limit prescale s hidx hv]
        show (0 : Nat) ≠ 255
        decide
      · unfold _pSetPulseUS
        simp only [hidx, hv, if_true, if_false]
        show (254 : Nat) ≠ 255
        decide
    · intro hv
      rw [_pSetPulseUS_accepts F idx period pulse limit prescale s hidx hv]
      simp [set_ptrain]
    · unfold pAttach
      simp [hidx]
    · unfold pAttach
      simp only [hidx, if_true]
      exact hne
    · unfold pAttach
      simp [hidx, pAddToTimer, pReloadToTimer, pSetTimerPrescale, set_timer, set_ptrain]
    · unfold pAttach
      simp [hidx, pAddToTimer, pReloadToTimer, pSetTimerPrescale, set_timer, set_ptrain]

/-- C19, instance of the amended statement: in the initial state, where no
train is allocated, identifier 32 is refused and identifier 5 is accepted. -/
theorem C19_invalid_index_witness :
    _pSetPulseUS 16 32 100 20 5 8 initial_state = (ERROR_PTRAIN_IDX, initial_state) ∧
    pAttach 32 13 PTIMER1 initial_state = (ERROR_PTRAIN_IDX, initial_state) ∧
    pIsValidPTrain 5 initial_state = false ∧
    (_pSetPulseUS 16 5 100 20 5 8 initial_state).1 = 0 ∧
    (pAttach 5 13 PTIMER1 initial_state).1 = 5 :=
  have h1 := (C19_invalid_index 16 32 100 20 5 8 13 PTIMER1 initial_state).1 (by decide)
  have h2 := (C19_invalid_index 16 5 100 20 5 8 13 PTIMER1 initial_state).2 (by decide)
    (by decide)
  ⟨h1.1, h1.2, by decide, (h2.2.1 (by decide)).1, h2.2.2.1⟩

/-- C19 as stated fails: in the initial state no train is allocated
(`ptrain_count = 0`, `pIsValidPTrain(5)` is false), yet `_pSetPulseUS` on
identifier 5 returns 0 and stores 200 period counts on train 5, and `pAttach`
of identifier 5 returns 5 and makes it a member of `PTIMER1`. -/
theorem C19_counterexample :
    initial_state.ptrain_count = 0 ∧
    pIsValidPTrain 5 initial_state = false ∧
    (_pSetPulseUS 16 5 100 20 5 8 initial_state).1 = 0 ∧
    (initial_state.ptrains 5).period_counts = 0 ∧
    (((_pSetPulseUS 16 5 100 20 5 8 initial_state).2).ptrains 5).period_counts = 200 ∧
    (pAttach 5 13 PTIMER1 initial_state).1 = 5 ∧
    (initial_state.timer_array PTIMER1).number_of_ptrains = 0 ∧
    (((pAttach 5 13 PTIMER1 initial_state).2).timer_array PTIMER1).number_of_ptrains = 1 ∧
    (((pAttach 5 13 PTIMER1 initial_state).2).ptrains 5).pin = 13 := by
  decide

/-- C20: on a train with index below `NUMBER_OF_PTRAINS` and a prescale that
is not 0 (as every allocated train has), each narrow setter returns 0 for
every argument and changes one field of that train and nothing else:
`pSetPulseOnlyUS` the `pulse_counts`, `pSetPeriodOnlyUS` the `period_counts`,
`pSetPeriodNumberOnly` the `period_num_limit`; the other fields of the train,
every other train, the train count, every timer control, every register and
the pin calls are as before.  `_pSetPulseUS`, for every argument and result,
changes no timer control, no register and no pin call either.  The count a
narrow setter stores is `US_TO_COUNTS` with the existing prescale of the
train, the exact floor when it fits 16 bits. -/
theorem C20_narrow_setters (F idx value : Nat) (s : State)
    (hidx : idx < NUMBER_OF_PTRAINS) (hprescale : 0 < (s.ptrains idx).prescale) :
    ((pSetPulseOnlyUS F idx value s).1 = 0 ∧
      ((pSetPulseOnlyUS F idx value s).2).ptrains idx =
        { s.ptrains idx with
          pulse_counts := US_TO_COUNTS F value (s.ptrains idx).prescale % 2 ^ 16 } ∧
      only_train_changed idx s (pSetPulseOnlyUS F idx value s).2) ∧
    ((pSetPeriodOnlyUS F idx value s).1 = 0 ∧
      ((pSetPeriodOnlyUS F idx value s).2).ptrains idx =
        { s.ptrains idx with
          period_counts := US_TO_COUNTS F value (s.ptrains idx).prescale % 2 ^ 16 } ∧
      only_train_changed idx s (pSetPeriodOnlyUS F idx value s).2) ∧
    ((pSetPeriodNumberOnly idx value s).1 = 0 ∧
      ((pSetPeriodNumberOnly idx value s).2).ptrains idx =
        { s.ptrains idx with period_num_limit := value } ∧
      only_train_changed idx s (pSetPeriodNumberOnly idx value s).2) ∧
    (∀ period pulse limit prescale,
      only_train_changed idx s (_pSetPulseUS F idx period pulse limit prescale s).2) ∧
    ((s.ptrains idx).prescale ≤ 1024 → value * F / (s.ptrains idx).prescale < 2 ^ 16 →
      US_TO_COUNTS F value (s.ptrains idx).prescale % 2 ^ 16 =
        value * F / (s.ptrains idx).prescale) := by
  have hframe : ∀ p : ptrain_t, only_train_changed idx s (set_ptrain s idx p) := by
    intro p
    refine ⟨?_, rfl, rfl, rfl, rfl⟩
    intro j hj
    simp [set_ptrain, Function.update_noteq hj]
  refine ⟨⟨rfl, ?_, hframe _⟩, ⟨rfl, ?_, hframe _⟩, ⟨rfl, ?_, hframe _⟩, ?_,
    fun h1 h2 => US_TO_COUNTS_fits F value _ hprescale h1 h2⟩
  · simp [pSetPulseOnlyUS, set_ptrain]
  · simp [pSetPeriodOnlyUS, set_ptrain]
  · simp [pSetPeriodNumberOnly, set_ptrain]
  · intro period pulse limit prescale
    by_cases hv : pulse < period ∨ period = 0
    · rw [_pSetPulseUS_accepts F idx period pulse limit prescale s hidx hv]
      exact hframe _
    · unfold _pSetPulseUS
      simp only [hidx, hv, if_true, if_false]
      exact ⟨fun _ _ => rfl, rfl, rfl, rfl, rfl⟩

/-- C20, instance: in the two train example train 0 (period 50 us, 100
counts) is bound to `PTIMER1`, whose aggregate pulse count is 60; setting the
pulse of train 0 to 60 us, more than its period, returns 0, stores 120 counts
on the train, leaves its period at 100 counts and the timer at 60. -/
theorem C20_narrow_setters_witness :
    (two_trains.ptrains 0).period_counts = 100 ∧
    (two_trains.timer_array PTIMER1).pulse_counts = 60 ∧
    (pSetPulseOnlyUS 16 0 60 two_trains).1 = 0 ∧
    (((pSetPulseOnlyUS 16 0 60 two_trains).2).ptrains 0).pulse_counts = 120 ∧
    (((pSetPulseOnlyUS 16 0 60 two_trains).2).ptrains 0).period_counts = 100 ∧
    ((pSetPulseOnlyUS 16 0 60 two_trains).2).timer_array = two_trains.timer_array :=
  have h := C20_narrow_setters 16 0 60 two_trains (by decide) (by decide)
  ⟨by decide, by decide, h.1.1, by rw [h.1.2.1]; decide, by rw [h.1.2.1]; decide,
    h.1.2.2.2.2.1⟩

/-- On an active timer `pStartTimer` returns `ERROR_TIMER_RUNNING`. -/
theorem pStartTimer_of_active (t : timers16bit_t) (s : State)
    (h : pIsTimerActive t s = true) : (pStartTimer t s).1 = ERROR_TIMER_RUNNING := by
  unfold pStartTimer
  simp [h]

/-- On an inactive timer with a member `pStartTimer` returns 0. -/
theorem pStartTimer_of_inactive (t : timers16bit_t) (s : State)
    (h : pIsTimerActive t s = false) (hm : 0 < (s.timer_array t).number_of_ptrains) :
    (pStartTimer t s).1 = 0 := by
  unfold pStartTimer
  simp [h, hm]

/-- The train loaded last through `pAttach` leaves a `bit_prescale` of 1, 2 or
3 on the timer, so its low three bits are not all zero. -/
theorem pAttach_bit_prescale (idx : Nat) (pin : Int) (t : timers16bit_t) (s : State)
    (hidx : idx < NUMBER_OF_PTRAINS) :
    (((pAttach idx pin t s).2).timer_array t).bit_prescale &&& 7 ≠ 0 ∧
    ((pAttach idx pin t s).2).registers = s.registers := by
  unfold pAttach
  simp only [hidx, if_true, pAddToTimer, pReloadToTimer, pSetTimerPrescale, set_timer,
    set_ptrain, Function.update_same]
  refine ⟨?_, trivial⟩
  split_ifs <;> decide

/-- C21, as the code behaves: after a `pStartTimer` that returns 0 on a timer
whose `bit_prescale` has a prescale bit set (as every `pAttach` leaves it), on
`PTIMER1`, `PTIMER4` and `PTIMER5` the timer is active and a second
`pStartTimer` returns `ERROR_TIMER_RUNNING`; on `PTIMER3`, where `pEnableISR`
ands the prescale into `TCCR3B` instead of or-ing it, the prescale bits stay
zero: `pIsTimerActive` is false and a second `pStartTimer` returns 0 again. -/
theorem C21_active_after_start (t : timers16bit_t) (s : State)
    (hstart : (pStartTimer t s).1 = 0)
    (hbits : (s.timer_array t).bit_prescale &&& 7 ≠ 0) :
    (t ≠ PTIMER3 →
      pIsTimerActive t (pStartTimer t s).2 = true ∧
      (pStartTimer t (pStartTimer t s).2).1 = ERROR_TIMER_RUNNING) ∧
    (t = PTIMER3 →
      pIsTimerActive t (pStartTimer t s).2 = false ∧
      (pStartTimer t (pStartTimer t s).2).1 = 0) ∧
    (∀ (idx : Nat) (pin : Int) (s0 : State), idx < NUMBER_OF_PTRAINS →
      (((pAttach idx pin t s0).2).timer_array t).bit_prescale &&& 7 ≠ 0) := by
  obtain ⟨hinactive, hmember⟩ := pStartTimer_ok t s hstart
  obtain ⟨q1, _, _, _, _, q6⟩ := pStartTimer_started t s hstart
  refine ⟨?_, ?_, fun idx pin s0 h => (pAttach_bit_prescale idx pin t s0 h).1⟩
  · intro h3
    have hact := q6 h3 hbits
    exact ⟨hact, pStartTimer_of_active t _ hact⟩
  · intro h3
    subst h3
    have h7 : (s.registers PTIMER3).TCCRnB &&& 7 = 0 := by
      have := hinactive
      simp [pIsTimerActive] at this
      exact this
    have hoff : pIsTimerActive PTIMER3 (pStartTimer PTIMER3 s).2 = false := by
      unfold pStartTimer
      rw [if_pos ⟨hinactive, hmember⟩]
      simp [pEnableISR, set_timer, set_registers, pIsTimerActive, and_and_seven _ _ h7]
    have hm : 0 < (((pStartTimer PTIMER3 s).2).timer_array PTIMER3).number_of_ptrains := by
      rw [q1.2.2.1]; exact hmember
    exact ⟨hoff, pStartTimer_of_inactive PTIMER3 _ hoff hm⟩

/-- C21, the failing input: the one train example on `PTIMER3`.  `pStartTimer`
returns 0, the timer is not active afterwards and a second `pStartTimer`
returns 0 as well. -/
theorem C21_active_after_start_witness :
    (pStartTimer PTIMER3 (one_train_on PTIMER3)).1 = 0 ∧
    ((one_train_on PTIMER3).timer_array PTIMER3).bit_prescale = 0x02 ∧
    pIsTimerActive PTIMER3 (pStartTimer PTIMER3 (one_train_on PTIMER3)).2 = false ∧
    (pStartTimer PTIMER3 (pStartTimer PTIMER3 (one_train_on PTIMER3)).2).1 = 0 :=
  have h := (C21_active_after_start PTIMER3 (one_train_on PTIMER3) (by decide)
    (by decide)).2.1 rfl
  ⟨by decide, by decide, h.1, h.2⟩

/-- Storing into train `i` a record with the prescale it had keeps the
registry invariant. -/
theorem set_ptrain_keeps_prescales (s : State) (i : Nat) (p : ptrain_t)
    (hp : p.prescale = (s.ptrains i).prescale) (h : allocated_prescales_supported s) :
    allocated_prescales_supported (set_ptrain s i p) := by
  refine ⟨h.1, ?_⟩
  intro idx hidx
  by_cases he : idx = i
  · subst he
    simp only [set_ptrain, Function.update_same, hp]
    exact h.2 idx hidx
  · simp only [set_ptrain, Function.update_noteq he]
    exact h.2 idx hidx

/-- `pNewPTrain` keeps the registry invariant. -/
theorem pNewPTrain_keeps_prescales (s : State) (h : allocated_prescales_supported s) :
    allocated_prescales_supported (pNewPTrain s).2 := by
  unfold pNewPTrain
  by_cases hc : s.ptrain_count < NUMBER_OF_PTRAINS
  · simp only [hc, if_true, set_ptrain]
    refine ⟨Nat.succ_le_of_lt hc, ?_⟩
    intro idx hidx
    by_cases he : idx = s.ptrain_count
    · subst he
      simp [supported_prescale]
    · simp only [Function.update_noteq he]
      exact h.2 idx (by simp only [] at hidx; omega)
  · simp only [hc, if_false]
    exact h

/-- `_pSetPulseUS` keeps the registry invariant, for every argument. -/
theorem _pSetPulseUS_keeps_prescales (F i period pulse limit prescale : Nat) (s : State)
    (h : allocated_prescales_supported s) :
    allocated_prescales_supported (_pSetPulseUS F i period pulse limit prescale s).2 := by
  by_cases hi : i < NUMBER_OF_PTRAINS
  · by_cases hv : pulse < period ∨ period = 0
    · rw [_pSetPulseUS_accepts F i period pulse limit prescale s hi hv]
      refine ⟨h.1, ?_⟩
      intro idx hidx
      by_cases he : idx = i
      · subst he
        simp only [set_ptrain, Function.update_same]
        exact stored_prescale_cases prescale
      · simp only [set_ptrain, Function.update_noteq he]
        exact h.2 idx hidx
    · unfold _pSetPulseUS
      simp only [hi, hv, if_true, if_false]
      exact h
  · unfold _pSetPulseUS
    simp only [hi, if_false]
    exact h

/-- Every registry call that stays inside `ptrains` keeps the registry
invariant. -/
theorem apply_call_keeps_prescales (F : Nat) (c : registry_call) (s : State)
    (hc : writes_inside_ptrains c) (h : allocated_prescales_supported s) :
    allocated_prescales_supported (apply_call F c s) := by
  cases c with
  | call_pNewPTrain => exact pNewPTrain_keeps_prescales s h
  | call__pSetPulseUS i period pulse limit prescale =>
    exact _pSetPulseUS_keeps_prescales F i period pulse limit prescale s h
  | call_pSetPulseUS i period pulse limit =>
    exact _pSetPulseUS_keeps_prescales F i period pulse limit _ s h
  | call_pSetPulseOnlyUS i pulse => exact set_ptrain_keeps_prescales s i _ rfl h
  | call_pSetPeriodOnlyUS i period => exact set_ptrain_keeps_prescales s i _ rfl h
  | call_pSetPeriodNumberOnly i limit => exact set_ptrain_keeps_prescales s i _ rfl h

/-- A sequence of registry calls that stay inside `ptrains` keeps the registry
invariant. -/
theorem apply_calls_keeps_prescales (F : Nat) (calls : List registry_call) :
    ∀ s : State, (∀ c, c ∈ calls → writes_inside_ptrains c) →
      allocated_prescales_supported s → allocated_prescales_supported (apply_calls F calls s) := by
  induction calls with
  | nil => intro s _ h; exact h
  | cons c cs ih =>
    intro s hcs h
    exact ih (apply_call F c s) (fun d hd => hcs d (List.mem_cons_of_mem c hd))
      (apply_call_keeps_prescales F c s (hcs c (List.mem_cons_self c cs)) h)

/-- C22: in every state reached from the initial state by calls of
`pNewPTrain`, `_pSetPulseUS`, `pSetPulseUS` (with any arguments) and of the
narrow setters (with a train index inside the array `ptrains`), every
allocated train, that is every index below `ptrain_count`, has its prescale in
{1, 8, 64, 256, 1024}, and `ptrain_count` is at most `NUMBER_OF_PTRAINS`.
Hence the divisor of `US_TO_COUNTS` in `pSetPulseOnlyUS` and
`pSetPeriodOnlyUS` on an allocated train, the prescale of the train, is not 0,
and the divisor in `_pSetPulseUS`, the prescale it has just stored, is not 0
for any requested prescale. -/
theorem C22_allocated_prescale (F : Nat) (calls : List registry_call) (idx : Nat)
    (hinside : ∀ c, c ∈ calls → writes_inside_ptrains c)
    (hidx : idx < (apply_calls F calls initial_state).ptrain_count) :
    supported_prescale ((apply_calls F calls initial_state).ptrains idx).prescale ∧
    ((apply_calls F calls initial_state).ptrains idx).prescale ≠ 0 ∧
    (apply_calls F calls initial_state).ptrain_count ≤ NUMBER_OF_PTRAINS ∧
    (∀ prescale, stored_prescale prescale ≠ 0) ∧
    (∀ period pulse limit prescale,
      (_pSetPulseUS F idx period pulse limit prescale
        (apply_calls F calls initial_state)).1 = 0 →
      (((_pSetPulseUS F idx period pulse limit prescale
        (apply_calls F calls initial_state)).2).ptrains idx).prescale ≠ 0) := by
  have h0 : allocated_prescales_supported initial_state :=
    ⟨Nat.zero_le _, fun i hi => absurd hi (Nat.not_lt_zero i)⟩
  have h := apply_calls_keeps_prescales F calls initial_state hinside h0
  have hs := h.2 idx hidx
  have hne : ∀ p, supported_prescale p → p ≠ 0 := by
    intro p hp
    unfold supported_prescale at hp
    omega
  refine ⟨hs, hne _ hs, h.1, fun p => hne _ (stored_prescale_cases p), ?_⟩
  intro period pulse limit prescale hok
  obtain ⟨hi, hv⟩ := _pSetPulseUS_ok F idx period pulse limit prescale _ hok
  rw [_pSetPulseUS_accepts F idx period pulse limit prescale _ hi hv]
  simp only [set_ptrain, Function.update_same]
  exact hne _ (stored_prescale_cases prescale)

/-- C22, instance: two allocations, a configure of train 0 with the
unsupported prescale 3, a configure of train 1 with prescale 1024 through
`_pSetPulseUS` and again through `pSetPulseUS`, and the three narrow setters on
train 0; the prescale of train 1 is 1024 and that of train 0 is 8. -/
theorem C22_allocated_prescale_witness :
    (apply_calls 16
      [.call_pNewPTrain, .call_pNewPTrain, .call__pSetPulseUS 0 100 20 5 3,
        .call__pSetPulseUS 1 1000 100 5 1024, .call_pSetPulseUS 1 2000 100 5,
        .call_pSetPulseOnlyUS 0 30, .call_pSetPeriodOnlyUS 0 200,
        .call_pSetPeriodNumberOnly 0 9] initial_state).ptrain_count = 2 ∧
    supported_prescale ((apply_calls 16
      [.call_pNewPTrain, .call_pNewPTrain, .call__pSetPulseUS 0 100 20 5 3,
        .call__pSetPulseUS 1 1000 100 5 1024, .call_pSetPulseUS 1 2000 100 5,
        .call_pSetPulseOnlyUS 0 30, .call_pSetPeriodOnlyUS 0 200,
        .call_pSetPeriodNumberOnly 0 9] initial_state).ptrains 1).prescale ∧
    ((apply_calls 16
      [.call_pNewPTrain, .call_pNewPTrain, .call__pSetPulseUS 0 100 20 5 3,
        .call__pSetPulseUS 1 1000 100 5 1024, .call_pSetPulseUS 1 2000 100 5,
        .call_pSetPulseOnlyUS 0 30, .call_pSetPeriodOnlyUS 0 200,
        .call_pSetPeriodNumberOnly 0 9] initial_state).ptrains 1).prescale = 1024 ∧
    ((apply_calls 16
      [.call_pNewPTrain, .call_pNewPTrain, .call__pSetPulseUS 0 100 20 5 3,
        .call__pSetPulseUS 1 1000 100 5 1024, .call_pSetPulseUS 1 2000 100 5,
        .call_pSetPulseOnlyUS 0 30, .call_pSetPeriodOnlyUS 0 200,
        .call_pSetPeriodNumberOnly 0 9] initial_state).ptrains 0).prescale = 8 :=
  have h := C22_allocated_prescale 16
    [.call_pNewPTrain, .call_pNewPTrain, .call__pSetPulseUS 0 100 20 5 3,
      .call__pSetPulseUS 1 1000 100 5 1024, .call_pSetPulseUS 1 2000 100 5,
      .call_pSetPulseOnlyUS 0 30, .call_pSetPeriodOnlyUS 0 200,
      .call_pSetPeriodNumberOnly 0 9] 1
    (by
      intro c hc
      simp only [List.mem_cons, List.mem_singleton, List.not_mem_nil, or_false] at hc
      rcases hc with h | h | h | h | h | h | h | h <;> subst h <;>
        simp [writes_inside_ptrains])
    (by decide)
  ⟨by decide, h.1, by decide, by decide⟩

end PulseTrain
